import Mathlib

/-!
Shallow embedding of the order-and-inventory core of the lua-cheia e-commerce
backend (store/models.py, store/views.py, store/admin.py), together with
proofs about the claims of its specification.

Modelling conventions:
* Django model rows become Lean structures; the database becomes a `Store`
  structure holding one list per table, with row updates modelled as keyed
  list updates (UPDATE ... WHERE pk = ...).
* Python `Decimal` money amounts become exact rationals (`Rat`).  The source
  converts float literals such as `Decimal(0.01)` and `Decimal(0.1)`; the
  tiny binary-float conversion noise is abstracted to the intended exact
  constants 1/100 and 1/10.
* `stock_qty` fields are `PositiveIntegerField`s.  In-memory Python holds any
  int, so we use `Int`; persisting a negative value is rejected by the
  database check constraint that Django generates for positive fields, which
  the embedded `save` models by returning `none` (an IntegrityError).
* Optional strings (`color`, `size`, ...) use `""` for Python `None`/empty;
  the source only ever tests them for truthiness or equality.
* Fields never read by any claim (images, slugs, ratings, vendors, buyers,
  contact snapshots, dates, uuid formats) are elided; `oid`/row ids become
  natural numbers with a deterministic fresh-id generator.
-/

namespace LuaCheia

/-- Monetary amounts (python `Decimal`), modelled as exact rationals. -/

abbrev Money := Rat

/-- Row of `store.models.Product` (fields used by the claims). -/

structure Product where
  id : Nat
  title : String
  price : Money
  shipping_ammount : Money
  max_cart_limit : Int
  stock_qty : Int
  in_stock : Bool
  status : String
  deriving Repr, DecidableEq

/-- Overridden `Product.save` (store/models.py:58-63): recomputes the derived
flag `self.in_stock = self.stock_qty > 0` and persists the row.  `stock_qty`
is a `PositiveIntegerField`, so the database check constraint rejects a
negative value at save time (IntegrityError), modelled as `none`.  The slug
and rating recomputation in the same method touch no field any claim reads
and are elided. -/

def Product.save (p : Product) : Option Product :=
  if p.stock_qty < 0 then none
  else some { p with in_stock := decide (0 < p.stock_qty) }

/-- Row of `store.models.Color` (a product variant with its own stock). -/

structure Color where
  id : Nat
  product_id : Nat
  name : String
  stock_qty : Int
  in_stock : Bool
  deriving Repr, DecidableEq

/-- Overridden `Color.save` (store/models.py:148-150): recomputes
`in_stock = stock_qty > 0` and persists, subject to the same
`PositiveIntegerField` check constraint as `Product.save`. -/

def Color.save (c : Color) : Option Color :=
  if c.stock_qty < 0 then none
  else some { c with in_stock := decide (0 < c.stock_qty) }

/-- Row of `store.models.Size` (a product variant with its own stock). -/

structure Size where
  id : Nat
  product_id : Nat
  name : String
  stock_qty : Int
  in_stock : Bool
  deriving Repr, DecidableEq

/-- Overridden `Size.save` (store/models.py:167-169), exactly as `Color.save`. -/

def Size.save (s : Size) : Option Size :=
  if s.stock_qty < 0 then none
  else some { s with in_stock := decide (0 < s.stock_qty) }

/-- Row of `store.models.Cart` (one cart line item). -/

structure CartItem where
  id : Nat
  cart_id : String
  product_id : Nat
  qty : Int
  price : Money
  sub_total : Money
  shipping_ammount : Money
  tax_fee : Money
  service_fee : Money
  total : Money
  color : String
  size : String
  country : String
  deriving Repr, DecidableEq

/-- Row of `store.models.CartOrder` (fields used by the claims). -/

structure CartOrder where
  oid : Nat
  payment_method : String
  payment_status : String
  order_status : String
  sub_total : Money
  shipping_ammount : Money
  tax_fee : Money
  service_fee : Money
  total : Money
  deriving Repr, DecidableEq

/-- Row of `store.models.CartOrderItem` (fields used by the claims). -/

structure CartOrderItem where
  order_oid : Nat
  product_id : Nat
  qty : Int
  color : String
  size : String
  price : Money
  sub_total : Money
  shipping_ammount : Money
  tax_fee : Money
  service_fee : Money
  total : Money
  initial_total : Money
  deriving Repr, DecidableEq

/-- Row of `store.models.Tax` (per-country tax percentage). -/

structure Tax where
  country : String
  rate : Int
  active : Bool
  deriving Repr, DecidableEq

/-- The persistent database state of the core: one list per table. -/

structure Store where
  products : List Product
  colors : List Color
  sizes : List Size
  taxes : List Tax
  carts : List CartItem
  orders : List CartOrder
  orderItems : List CartOrderItem
  deriving Repr, DecidableEq

/-- Keyed in-place list update: replaces every row whose key equals the key of
`a` by `a` (an `UPDATE ... WHERE pk = ...`; primary keys are unique in the
database, which theorems assume through `Nodup` hypotheses where it matters). -/

def updBy {α : Type} (key : α → Nat) (a : α) (l : List α) : List α :=
  l.map (fun x => if key x == key a then a else x)

/-- Lookup `Product.objects.get(id=pid)` / `.filter(id=pid).first()`. -/

def findProduct (st : Store) (pid : Nat) : Option Product :=
  st.products.find? (fun p => p.id == pid)

/-- Lookup `Product.objects.get(status="published", id=pid)` (store/views.py:123). -/

def findPublishedProduct (st : Store) (pid : Nat) : Option Product :=
  st.products.find? (fun p => p.status == "published" && p.id == pid)

/-- Queryset `product.color()` = `Color.objects.filter(product=product)`. -/

def productColors (st : Store) (pid : Nat) : List Color :=
  st.colors.filter (fun c => c.product_id == pid)

/-- Queryset `product.size()` = `Size.objects.filter(product=product)`. -/

def productSizes (st : Store) (pid : Nat) : List Size :=
  st.sizes.filter (fun s => s.product_id == pid)

/-- Lookup `Color.objects.filter(product=product, name=name).first()`. -/

def findColor (st : Store) (pid : Nat) (name : String) : Option Color :=
  st.colors.find? (fun c => c.product_id == pid && c.name == name)

/-- Lookup `Size.objects.filter(product=product, name=name).first()`. -/

def findSize (st : Store) (pid : Nat) (name : String) : Option Size :=
  st.sizes.find? (fun s => s.product_id == pid && s.name == name)

/-- Persist a product row (`product.save()` after mutation). -/

def updateProductRow (st : Store) (p : Product) : Store :=
  { st with products := updBy (fun q => q.id) p st.products }

/-- Persist a color row (`color.save()` after mutation). -/

def updateColorRow (st : Store) (c : Color) : Store :=
  { st with colors := updBy (fun d => d.id) c st.colors }

/-- Persist a size row (`size.save()` after mutation). -/

def updateSizeRow (st : Store) (s : Size) : Store :=
  { st with sizes := updBy (fun t => t.id) s st.sizes }

/-- Persist a cart row (`cart_item.save()` after mutation). -/

def updateCartRow (st : Store) (ci : CartItem) : Store :=
  { st with carts := updBy (fun d => d.id) ci st.carts }

/-- Persist an order row (`order.save()` after mutation). -/

def updateOrderRow (st : Store) (o : CartOrder) : Store :=
  { st with orders := updBy (fun p => p.oid) o st.orders }

/-- Stock of the product row with the given id, as the database would report it. -/

def productStock (st : Store) (pid : Nat) : Option Int :=
  (findProduct st pid).map (fun p => p.stock_qty)

/-- Stock of the color row resolved by (product id, name), as the code resolves colors. -/

def colorStockView (st : Store) (pid : Nat) (name : String) : Option Int :=
  (findColor st pid name).map (fun c => c.stock_qty)

/-- Stock of the size row resolved by (product id, name). -/

def sizeStockView (st : Store) (pid : Nat) (name : String) : Option Int :=
  (findSize st pid name).map (fun s => s.stock_qty)

/-- Tax lookup of `CartAPIView.create` (store/views.py:201-202):
`Tax.objects.filter(country=country).first()` (note: the `active` flag is not
consulted), then `tax_rate = tax.rate / 100 if tax else 0`. -/

def taxRateFor (st : Store) (country : String) : Rat :=
  match st.taxes.find? (fun t => t.country == country) with
  | some t => (t.rate : Rat) / 100
  | none => 0

/-- Payload of a cart-add request (store/views.py:99-107); `""` encodes an
absent/None value, matching the Python truthiness tests.  `user_id` is elided
(it only attaches an owner to the row). -/

structure CartAddPayload where
  product_id : Nat
  qty : Int
  price : Money
  shipping_ammount : Money
  country : String
  size : String
  color : String
  cart_id : String
  deriving Repr, DecidableEq

/-- Error responses of `CartAPIView.create`, one constructor per
`Response({"error": ...}, 400/404)` site, carrying exactly the values the
source interpolates into the message. -/

inductive CartError where
  | productIdRequired
  | cartIdRequired
  | qtyNotPositive
  | productNotFound
  | productOutOfStock (title : String)
  | onlyAvailable (available : Int) (requested : Int) (title : String)
  | maxCartLimit (limit : Int) (requested : Int) (title : String)
  | colorRequired (title : String)
  | colorNotAvailable (color : String) (title : String)
  | colorOnlyAvailable (available : Int) (color : String) (title : String)
  | sizeRequired (title : String)
  | sizeNotAvailable (size : String) (title : String)
  | sizeOnlyAvailable (available : Int) (size : String) (title : String)
  | accumExceedsStock (more_requested : Int) (reported_available : Int)
  | accumExceedsLimit (more_requested : Int) (reported_limit : Int)
  deriving Repr, DecidableEq

/-- Result of `CartAPIView.create`: 201 "Cart Created Successfully",
200 "Cart Updated Successfully. Total quantity: {new_qty}", or a 400/404
rejection. -/

inductive CartAddResult where
  | created
  | updated (total_qty : Int)
  | rejected (e : CartError)
  deriving Repr, DecidableEq

/-- Color-selection validation of `CartAPIView.create` (store/views.py:148-172):
if the product has colors, a real color must be selected, must exist and must
have `stock_qty ≥ qty`; if the product has none, the color is normalized to
"No Color".  Returns the normalized color string. -/

def validateColorSelection (st : Store) (product : Product) (color : String) (qty : Int) :
    Except CartError String :=
  if (productColors st product.id).isEmpty then .ok "No Color"
  else if color == "" || color == "No Color" then .error (.colorRequired product.title)
  else
    match findColor st product.id color with
    | none => .error (.colorNotAvailable color product.title)
    | some c =>
      if c.stock_qty < qty then .error (.colorOnlyAvailable c.stock_qty color product.title)
      else .ok color

/-- Size-selection validation of `CartAPIView.create` (store/views.py:174-198),
symmetric to `validateColorSelection`. -/

def validateSizeSelection (st : Store) (product : Product) (size : String) (qty : Int) :
    Except CartError String :=
  if (productSizes st product.id).isEmpty then .ok "No Size"
  else if size == "" || size == "No Size" then .error (.sizeRequired product.title)
  else
    match findSize st product.id size with
    | none => .error (.sizeNotAvailable size product.title)
    | some s =>
      if s.stock_qty < qty then .error (.sizeOnlyAvailable s.stock_qty size product.title)
      else .ok size

/-- Fresh primary key for a new cart row. -/

def freshCartRowId (st : Store) : Nat :=
  st.carts.foldl (fun m c => max m c.id) 0 + 1

/-- Lookup of an existing line item for the same (cart_id, product, color,
size) (store/views.py:211-216). -/

def findExistingLine (st : Store) (cart_id : String) (pid : Nat) (color size : String) :
    Option CartItem :=
  st.carts.find? (fun ci => ci.cart_id == cart_id && ci.product_id == pid
    && ci.color == color && ci.size == size)

/-- Recomputation of an existing line item on accumulation
(store/views.py:236-241): quantity becomes `existing.qty + payload.qty` and
every fee field is recomputed once from that combined quantity, from the
request's unit price, per-unit shipping and the request country's tax rate. -/

def accumRow (payload : CartAddPayload) (tax_rate : Rat) (existing : CartItem) : CartItem :=
  { existing with
    qty := existing.qty + payload.qty
    sub_total := payload.price * ((existing.qty + payload.qty : Int) : Rat)
    shipping_ammount := payload.shipping_ammount * ((existing.qty + payload.qty : Int) : Rat)
    tax_fee := payload.price * ((existing.qty + payload.qty : Int) : Rat) * tax_rate
    service_fee := payload.price * ((existing.qty + payload.qty : Int) : Rat) * (1 / 100)
    total := payload.price * ((existing.qty + payload.qty : Int) : Rat)
      + payload.shipping_ammount * ((existing.qty + payload.qty : Int) : Rat)
      + payload.price * ((existing.qty + payload.qty : Int) : Rat) * tax_rate
      + payload.price * ((existing.qty + payload.qty : Int) : Rat) * (1 / 100) }

/-- The new cart row created on a first add (store/views.py:248-264). -/

def newCartRow (payload : CartAddPayload) (st : Store) (product : Product)
    (color size : String) (tax_rate : Rat) : CartItem :=
  { id := freshCartRowId st
    cart_id := payload.cart_id
    product_id := product.id
    qty := payload.qty
    price := payload.price
    sub_total := payload.price * (payload.qty : Rat)
    shipping_ammount := payload.shipping_ammount * (payload.qty : Rat)
    tax_fee := payload.price * (payload.qty : Rat) * tax_rate
    service_fee := payload.price * (payload.qty : Rat) * (1 / 100)
    total := payload.price * (payload.qty : Rat) + payload.shipping_ammount * (payload.qty : Rat)
      + payload.price * (payload.qty : Rat) * tax_rate
      + payload.price * (payload.qty : Rat) * (1 / 100)
    color := color
    size := size
    country := payload.country }

/-- Embeds `CartAPIView.create` (store/views.py:94-274).  Notable source
behaviour kept faithfully: the price/shipping used come from the request
payload; the tax lookup ignores the `active` flag; when a line item for the
same (cart_id, product, color, size) exists, the combined quantity
`existing.qty + qty` is re-validated against `product.stock_qty` and
`product.max_cart_limit` (the rejection message reports `qty` and the total
stock/limit), and on success every fee field is recomputed from the combined
quantity; otherwise a new row is created. -/

def cartAdd (payload : CartAddPayload) (st : Store) : Store × CartAddResult :=
  if payload.product_id == 0 then (st, .rejected .productIdRequired)
  else if payload.cart_id == "" then (st, .rejected .cartIdRequired)
  else if payload.qty ≤ 0 then (st, .rejected .qtyNotPositive)
  else
    match findPublishedProduct st payload.product_id with
    | none => (st, .rejected .productNotFound)
    | some product =>
      if product.stock_qty ≤ 0 then (st, .rejected (.productOutOfStock product.title))
      else if payload.qty > product.stock_qty then
        (st, .rejected (.onlyAvailable product.stock_qty payload.qty product.title))
      else if payload.qty > product.max_cart_limit then
        (st, .rejected (.maxCartLimit product.max_cart_limit payload.qty product.title))
      else
        match validateColorSelection st product payload.color payload.qty with
        | .error e => (st, .rejected e)
        | .ok color =>
          match validateSizeSelection st product payload.size payload.qty with
          | .error e => (st, .rejected e)
          | .ok size =>
            let tax_rate := taxRateFor st payload.country
            match findExistingLine st payload.cart_id product.id color size with
            | some existing =>
              let new_qty := existing.qty + payload.qty
              if new_qty > product.stock_qty then
                (st, .rejected (.accumExceedsStock payload.qty product.stock_qty))
              else if new_qty > product.max_cart_limit then
                (st, .rejected (.accumExceedsLimit payload.qty product.max_cart_limit))
              else
                (updateCartRow st (accumRow payload tax_rate existing), .updated new_qty)
            | none =>
              ({ st with carts := st.carts ++ [newCartRow payload st product color size tax_rate] },
                .created)

/-- Result of `CartUpdateAPIView.update`, one constructor per response site
with the values the source interpolates. -/

inductive CartUpdateResult where
  | ok (item : CartItem)
  | notFound
  | qtyNotPositive
  | exceedsLimit (limit : Int)
  | exceedsStock (available : Int) (title : String)
  | exceedsLimitDup (limit : Int) (title : String)
  | colorExceedsStock (available : Int) (color : String) (title : String)
  | sizeExceedsStock (available : Int) (size : String) (title : String)
  | productMissing
  deriving Repr, DecidableEq

/-- Embeds the `qty` branch of `CartUpdateAPIView.update`
(store/views.py:459-548).  Validation order follows the source: qty > 0, the
max-cart-limit check, the stock check, a second (unreachable) max-cart-limit
check, then color/size stock checks that only fire when the variant row is
found.  On success the breakdown is recomputed from the stored unit price and
the product's current per-unit shipping, with a hard-coded 10% tax rate
(`cart_item.tax_fee = cart_item.sub_total * Decimal(0.1)`, source comment
"Assuming 10% tax rate") and a 1% service fee. -/

def cartUpdate (cart_id : String) (item_id : Nat) (new_qty : Int) (st : Store) :
    Store × CartUpdateResult :=
  match st.carts.find? (fun ci => ci.cart_id == cart_id && ci.id == item_id) with
  | none => (st, .notFound)
  | some item =>
    if new_qty ≤ 0 then (st, .qtyNotPositive)
    else
      match findProduct st item.product_id with
      | none => (st, .productMissing)
      | some product =>
        if new_qty > product.max_cart_limit then (st, .exceedsLimit product.max_cart_limit)
        else if new_qty > product.stock_qty then
          (st, .exceedsStock product.stock_qty product.title)
        else if new_qty > product.max_cart_limit then
          (st, .exceedsLimitDup product.max_cart_limit product.title)
        else
          let colorCheck : Option CartUpdateResult :=
            if item.color != "" && item.color != "No Color" then
              match findColor st product.id item.color with
              | some c =>
                if new_qty > c.stock_qty then
                  some (.colorExceedsStock c.stock_qty item.color product.title)
                else none
              | none => none
            else none
          match colorCheck with
          | some r => (st, r)
          | none =>
            let sizeCheck : Option CartUpdateResult :=
              if item.size != "" && item.size != "No Size" then
                match findSize st product.id item.size with
                | some s =>
                  if new_qty > s.stock_qty then
                    some (.sizeExceedsStock s.stock_qty item.size product.title)
                  else none
                | none => none
              else none
            match sizeCheck with
            | some r => (st, r)
            | none =>
              let sub2 := item.price * (new_qty : Rat)
              let ship2 := product.shipping_ammount * (new_qty : Rat)
              let tax2 := sub2 * (1 / 10)
              let serv2 := sub2 * (1 / 100)
              let updated := { item with
                qty := new_qty
                sub_total := sub2
                shipping_ammount := ship2
                tax_fee := tax2
                service_fee := serv2
                total := sub2 + ship2 + tax2 + serv2 }
              (updateCartRow st updated, .ok updated)

/-- Payload of `createOrderAPIView.create` (store/views.py:614-633).
`payment_method` is `payload.get('payment_method', 'stripe')`, so an absent
value defaults to "stripe".  Buyer and the contact/address snapshot fields are
elided (no claim reads them). -/

structure OrderPayload where
  cart_id : String
  payment_method : Option String
  deriving Repr, DecidableEq

/-- Running totals dict of `createOrderAPIView.create` (store/views.py:638-644). -/

structure OrderTotals where
  shipping : Money
  tax : Money
  service_fee : Money
  sub_total : Money
  total : Money
  deriving Repr, DecidableEq

/-- Initial all-zero totals. -/

def OrderTotals.zero : OrderTotals :=
  { shipping := 0, tax := 0, service_fee := 0, sub_total := 0, total := 0 }

/-- Adds one cart item's stored fee fields into the totals (store/views.py:714-719). -/

def OrderTotals.add (tot : OrderTotals) (ci : CartItem) : OrderTotals :=
  { shipping := tot.shipping + ci.shipping_ammount
    tax := tot.tax + ci.tax_fee
    service_fee := tot.service_fee + ci.service_fee
    sub_total := tot.sub_total + ci.sub_total
    total := tot.total + ci.total }

/-- Result of `createOrderAPIView.create`: the 201 success response with the
order oid, or the 400 response carrying `str(e)` of the caught exception. -/

inductive OrderResult where
  | success (oid : Nat)
  | failure (message : String)
  deriving Repr, DecidableEq

/-- Size-stock commit of the immediate branch (store/views.py:707-710):
decrements the locked size row (when a size variant was selected) and saves
it.  A save rejection (negative stock) would raise, carrying the current
state out to the exception handler. -/

def commitSizeStock (sizeOpt : Option Size) (qty : Int) (st : Store) :
    Except (Store × String) Store :=
  match sizeOpt with
  | none => .ok st
  | some s =>
    match Size.save { s with stock_qty := s.stock_qty - qty } with
    | none => .error (st, "IntegrityError")
    | some s2 => .ok (updateSizeRow st s2)

/-- Color-stock commit of the immediate branch (store/views.py:702-705),
analogous to `commitSizeStock`. -/

def commitColorStock (colorOpt : Option Color) (qty : Int) (st : Store) :
    Except (Store × String) Store :=
  match colorOpt with
  | none => .ok st
  | some c =>
    match Color.save { c with stock_qty := c.stock_qty - qty } with
    | none => .error (st, "IntegrityError")
    | some c2 => .ok (updateColorRow st c2)

/-- Immediate stock commit for one order line (store/views.py:697-710):
`product.stock_qty -= qty; product.save()`, then the color and size rows
fetched during the locked re-check, when a variant was selected. -/

def commitItemStock (product : Product) (colorOpt : Option Color) (sizeOpt : Option Size)
    (qty : Int) (st : Store) : Except (Store × String) Store :=
  match Product.save { product with stock_qty := product.stock_qty - qty } with
  | none => .error (st, "IntegrityError")
  | some p2 =>
    match commitColorStock colorOpt qty (updateProductRow st p2) with
    | .error e => .error e
    | .ok st2 => commitSizeStock sizeOpt qty st2

/-- A cart line records a real color variant (not empty, not the sentinel). -/

def chosenColor (ci : CartItem) : Bool :=
  ci.color != "" && ci.color != "No Color"

/-- A cart line records a real size variant. -/

def chosenSize (ci : CartItem) : Bool :=
  ci.size != "" && ci.size != "No Size"

/-- Locked re-check of one cart line's color (store/views.py:654-660): when a
color variant is recorded, the color row must exist and hold enough stock,
otherwise `Exception(f"Not enough stock for color {...}")` is raised. -/

def recheckColor (st : Store) (product : Product) (ci : CartItem) :
    Except String (Option Color) :=
  if chosenColor ci then
    match findColor st product.id ci.color with
    | some c =>
      if c.stock_qty < ci.qty then .error ("Not enough stock for color " ++ ci.color)
      else .ok (some c)
    | none => .error ("Not enough stock for color " ++ ci.color)
  else .ok none

/-- Locked re-check of one cart line's size (store/views.py:662-669). -/

def recheckSize (st : Store) (product : Product) (ci : CartItem) :
    Except String (Option Size) :=
  if chosenSize ci then
    match findSize st product.id ci.size with
    | some s =>
      if s.stock_qty < ci.qty then .error ("Not enough stock for size " ++ ci.size)
      else .ok (some s)
    | none => .error ("Not enough stock for size " ++ ci.size)
  else .ok none

/-- The `CartOrderItem.objects.create(...)` snapshot of one cart line
(store/views.py:676-690). -/

def mkOrderItem (oid : Nat) (product : Product) (ci : CartItem) : CartOrderItem :=
  { order_oid := oid
    product_id := product.id
    qty := ci.qty
    color := ci.color
    size := ci.size
    price := ci.price
    sub_total := ci.sub_total
    shipping_ammount := ci.shipping_ammount
    tax_fee := ci.tax_fee
    service_fee := ci.service_fee
    total := ci.total
    initial_total := ci.total }

/-- Processes one cart line inside the order-creation loop
(store/views.py:646-721): re-fetch the product under lock, re-check product
and variant stock (raising on shortage), create the `CartOrderItem` snapshot,
and — only when the payment method is not "whatsapp" — decrement and save the
product/color/size stock.  Errors carry the state already mutated before the
raise, because the surrounding `except` swallows the exception inside the
`transaction.atomic()` block, so that state is what commits. -/

def processOneItem (pm : String) (oid : Nat) (ci : CartItem) (st : Store) :
    Except (Store × String) Store :=
  match findProduct st ci.product_id with
  | none => .error (st, "Product matching query does not exist.")
  | some product =>
    if product.stock_qty < ci.qty then
      .error (st, "Not enough stock for " ++ product.title ++ ". Available: "
        ++ toString product.stock_qty)
    else
      match recheckColor st product ci with
      | .error msg => .error (st, msg)
      | .ok colorOpt =>
        match recheckSize st product ci with
        | .error msg => .error (st, msg)
        | .ok sizeOpt =>
          let st1 := { st with orderItems := st.orderItems ++ [mkOrderItem oid product ci] }
          if pm != "whatsapp" then commitItemStock product colorOpt sizeOpt ci.qty st1
          else .ok st1

/-- The order-creation loop over all cart lines (store/views.py:646-721),
threading the database state and the running totals. -/

def processOrderItems (pm : String) (oid : Nat) :
    List CartItem → Store → OrderTotals → Except (Store × String) (Store × OrderTotals)
  | [], st, tot => .ok (st, tot)
  | ci :: rest, st, tot =>
    match processOneItem pm oid ci st with
    | .error e => .error e
    | .ok st2 => processOrderItems pm oid rest st2 (tot.add ci)

/-- Fresh public identifier for a new order (the source draws a ShortUUID). -/

def freshOrderOid (st : Store) : Nat :=
  st.orders.foldl (fun m o => max m o.oid) 0 + 1

/-- Embeds `createOrderAPIView.create` (store/views.py:614-745).  The source
wraps a `try`/`except` INSIDE `with transaction.atomic()` and the handler
returns a 400 response instead of re-raising, so the context manager exits
normally and COMMITS everything done before the exception; the embedding
therefore returns the partially mutated state on failure.  Steps: create the
pending order row; loop over the cart lines of `cart_id` (an empty cart
skips the loop entirely — there is no empty-cart rejection); on success write
the aggregated totals to the order and bulk-delete the cart lines. -/

def createOrderWith (pm : String) (cart_id : String) (st : Store) : Store × OrderResult :=
  let oid := freshOrderOid st
  let order : CartOrder := {
    oid := oid
    payment_method := pm
    payment_status := "pending"
    order_status := "pending"
    sub_total := 0
    shipping_ammount := 0
    tax_fee := 0
    service_fee := 0
    total := 0 }
  let st1 := { st with orders := st.orders ++ [order] }
  let items := st1.carts.filter (fun ci => ci.cart_id == cart_id)
  match processOrderItems pm oid items st1 OrderTotals.zero with
  | .error (st2, msg) => (st2, .failure msg)
  | .ok (st2, tot) =>
    let st3 := updateOrderRow st2 { order with
      sub_total := tot.sub_total
      shipping_ammount := tot.shipping
      tax_fee := tot.tax
      service_fee := tot.service_fee
      total := tot.total }
    let st4 := { st3 with carts := st3.carts.filter (fun ci => !(ci.cart_id == cart_id)) }
    (st4, .success oid)

/-- Entry point of `createOrderAPIView.create`: resolves the payment method
(`payload.get('payment_method', 'stripe')`) and runs the transaction body. -/

def createOrder (payload : OrderPayload) (st : Store) : Store × OrderResult :=
  createOrderWith (payload.payment_method.getD "stripe") payload.cart_id st

/-- Order items of a given order. -/

def orderLines (st : Store) (oid : Nat) : List CartOrderItem :=
  st.orderItems.filter (fun i => i.order_oid == oid)

/-- Color phase of one settlement item (store/models.py:326-339): when a
non-sentinel, non-blank color string is recorded, resolve the color by name
on the current product and decrement it when found (a missing variant is only
logged, not an error); a save rejection raises. -/

def settleColorStep (product : Product) (item : CartOrderItem) (st : Store) :
    Except (Store × String) Store :=
  if item.color != "" && item.color != "No Color" && item.color.trim != "" then
    match findColor st product.id item.color with
    | some c =>
      match Color.save { c with stock_qty := c.stock_qty - item.qty } with
      | none => .error (st, "Error reducing stock for " ++ product.title)
      | some c2 => .ok (updateColorRow st c2)
    | none => .ok st
  else .ok st

/-- Size phase of one settlement item (store/models.py:341-355), symmetric to
`settleColorStep`. -/

def settleSizeStep (product : Product) (item : CartOrderItem) (st : Store) :
    Except (Store × String) Store :=
  if item.size != "" && item.size != "No Size" && item.size.trim != "" then
    match findSize st product.id item.size with
    | some s =>
      match Size.save { s with stock_qty := s.stock_qty - item.qty } with
      | none => .error (st, "Error reducing stock for " ++ product.title)
      | some s2 => .ok (updateSizeRow st s2)
    | none => .ok st
  else .ok st

/-- One iteration of the settlement loop (store/models.py:304-359): decrement
the product stock unconditionally — there is NO shortage check — and save
(the save raises an IntegrityError when the result is negative, re-raised as
`ValidationError(f"Error reducing stock for {title}: ...")`), then the color
and size phases.  The state mutated before a raise persists, because the
method runs in no transaction. -/

def settleOneItem (item : CartOrderItem) (st : Store) : Except (Store × String) Store :=
  match findProduct st item.product_id with
  | none => .error (st, "Error reducing stock")
  | some product =>
    match Product.save { product with stock_qty := product.stock_qty - item.qty } with
    | none => .error (st, "Error reducing stock for " ++ product.title)
    | some p2 =>
      match settleColorStep product item (updateProductRow st p2) with
      | .error e => .error e
      | .ok st2 => settleSizeStep product item st2

/-- The per-item loop of `CartOrder.reduce_stock_for_whatsapp_order`
(store/models.py:304-359). -/

def settleItems : List CartOrderItem → Store → Except (Store × String) Store
  | [], st => .ok st
  | item :: rest, st =>
    match settleOneItem item st with
    | .error e => .error e
    | .ok st2 => settleItems rest st2

/-- Embeds `CartOrder.reduce_stock_for_whatsapp_order`
(store/models.py:287-366), the deferred-payment settlement: it proceeds only
when `payment_method == 'whatsapp' and payment_status == 'paid'`, otherwise it
raises `ValidationError("This method can only be used for paid WhatsApp
orders. ...")` without touching anything.  When the guard passes it runs
`settleItems` over the order's items and returns True.  Note the method keeps
no record of having run: nothing marks the order as settled. -/

def reduceStockForWhatsappOrder (st : Store) (o : CartOrder) : Store × Except String Bool :=
  if o.payment_method == "whatsapp" && o.payment_status == "paid" then
    match settleItems (orderLines st o.oid) st with
    | .error (st2, msg) => (st2, .error msg)
    | .ok st2 => (st2, .ok true)
  else
    (st, .error ("This method can only be used for paid WhatsApp orders. Current: method="
      ++ o.payment_method ++ ", status=" ++ o.payment_status))

/-! ## Derived observations used by the theorems -/


/-- Cart lines of a given cart id, in database order. -/

def cartLines (st : Store) (cid : String) : List CartItem :=
  st.carts.filter (fun ci => ci.cart_id == cid)

/-- Total quantity a list of cart lines requests of one product. -/

def cartQtySum (items : List CartItem) (pid : Nat) : Int :=
  (items.map (fun ci => if ci.product_id == pid then ci.qty else 0)).sum

/-- Total quantity a list of cart lines requests of one color variant. -/

def colorQtySum (items : List CartItem) (pid : Nat) (nm : String) : Int :=
  (items.map (fun ci =>
    if chosenColor ci && ci.product_id == pid && ci.color == nm then ci.qty else 0)).sum

/-- Total quantity a list of cart lines requests of one size variant. -/

def sizeQtySum (items : List CartItem) (pid : Nat) (nm : String) : Int :=
  (items.map (fun ci =>
    if chosenSize ci && ci.product_id == pid && ci.size == nm then ci.qty else 0)).sum

/-- Every stock counter of the store is non-negative. -/

def stocksNonneg (st : Store) : Prop :=
  (∀ p ∈ st.products, 0 ≤ p.stock_qty) ∧ (∀ c ∈ st.colors, 0 ≤ c.stock_qty) ∧
    (∀ s ∈ st.sizes, 0 ≤ s.stock_qty)

instance (st : Store) : Decidable (stocksNonneg st) := by
  unfold stocksNonneg
  infer_instance

/-- Primary keys are unique, as the database guarantees. -/

def uniqueIds (st : Store) : Prop :=
  (st.products.map (fun p => p.id)).Nodup ∧ (st.colors.map (fun c => c.id)).Nodup ∧
    (st.sizes.map (fun s => s.id)).Nodup

instance (st : Store) : Decidable (uniqueIds st) := by
  unfold uniqueIds
  infer_instance

/-- Identity-determining fields of a color row. -/

def colorKey (c : Color) : Nat × Nat × String := (c.id, c.product_id, c.name)

/-- Identity-determining fields of a size row. -/

def sizeKey (s : Size) : Nat × Nat × String := (s.id, s.product_id, s.name)

/-- Two stores hold the same stock rows (same ids, owners and names), though
possibly with different quantities. -/

def sameStockShape (st st2 : Store) : Prop :=
  st2.products.map (fun p => p.id) = st.products.map (fun p => p.id) ∧
    st2.colors.map colorKey = st.colors.map colorKey ∧
    st2.sizes.map sizeKey = st.sizes.map sizeKey

/-! ## State projections of loop results -/


/-- Database state carried by a one-item step result (the error case carries
the state already mutated before the raise). -/

def stepState : Except (Store × String) Store → Store
  | .error e => e.1
  | .ok s => s

/-- Database state carried by the whole item-loop result. -/

def loopState : Except (Store × String) (Store × OrderTotals) → Store
  | .error e => e.1
  | .ok s => s.1

/-! ## Normal form of a successful immediate stock commit -/


/-- The product row as `product.stock_qty -= qty; product.save()` persists it. -/

def decProduct (p : Product) (qty : Int) : Product :=
  { p with stock_qty := p.stock_qty - qty, in_stock := decide (0 < p.stock_qty - qty) }

/-- The color row as `color.stock_qty -= qty; color.save()` persists it. -/

def decColor (c : Color) (qty : Int) : Color :=
  { c with stock_qty := c.stock_qty - qty, in_stock := decide (0 < c.stock_qty - qty) }

/-- The size row as `size.stock_qty -= qty; size.save()` persists it. -/

def decSize (s : Size) (qty : Int) : Size :=
  { s with stock_qty := s.stock_qty - qty, in_stock := decide (0 < s.stock_qty - qty) }

/-- The store after the three decrement-and-save writes of one immediate
order line. -/

def stepCommit (product : Product) (copt : Option Color) (sopt : Option Size)
    (qty : Int) (st : Store) : Store :=
  let st1 := updateProductRow st (decProduct product qty)
  let st2 := match copt with
    | none => st1
    | some c => updateColorRow st1 (decColor c qty)
  match sopt with
  | none => st2
  | some s => updateSizeRow st2 (decSize s qty)

instance {ε α : Type} [DecidableEq ε] [DecidableEq α] : DecidableEq (Except ε α) := fun x y =>
  match x, y with
  | .ok a, .ok b =>
    if h : a = b then isTrue (by rw [h])
    else isFalse (by intro hh; cases hh; exact h rfl)
  | .error a, .error b =>
    if h : a = b then isTrue (by rw [h])
    else isFalse (by intro hh; cases hh; exact h rfl)
  | .ok _, .error _ => isFalse (by intro h; cases h)
  | .error _, .ok _ => isFalse (by intro h; cases h)

/-! ## Spec-side price breakdown (for the refinement comparisons) -/


/-- Fee fields of a cart line, grouped for comparison. -/

structure Breakdown where
  sub_total : Money
  shipping : Money
  tax_fee : Money
  service_fee : Money
  total : Money
  deriving Repr, DecidableEq

/-- Price-breakdown formula exactly as the spec states it (§4.2):
`sub_total = unit_price × qty`, `shipping_total = per_unit_shipping × qty`,
`tax_fee = sub_total × (country_tax_rate / 100)` (0 when no Tax record),
`service_fee = sub_total × 0.01`, `total` their sum.  This is the spec side
of the refinement comparison; the code side is whatever `cartAdd` and
`cartUpdate` store. -/

def specBreakdown (unit_price per_unit_shipping : Money) (qty : Int) (tax_rate : Rat) :
    Breakdown :=
  { sub_total := unit_price * (qty : Rat)
    shipping := per_unit_shipping * (qty : Rat)
    tax_fee := unit_price * (qty : Rat) * tax_rate
    service_fee := unit_price * (qty : Rat) * (1 / 100)
    total := unit_price * (qty : Rat) + per_unit_shipping * (qty : Rat)
      + unit_price * (qty : Rat) * tax_rate + unit_price * (qty : Rat) * (1 / 100) }

/-- Fee fields stored on a cart line. -/

def CartItem.breakdown (ci : CartItem) : Breakdown :=
  { sub_total := ci.sub_total
    shipping := ci.shipping_ammount
    tax_fee := ci.tax_fee
    service_fee := ci.service_fee
    total := ci.total }

/-! ## Concrete fixtures used by the closed theorems and witnesses -/


/-- Product A: stock 10, price 100, per-unit shipping 10, cart limit 10. -/

def prodA : Product :=
  { id := 1, title := "A", price := 100, shipping_ammount := 10, max_cart_limit := 10,
    stock_qty := 10, in_stock := true, status := "published" }

/-- Product B: a single unit left in stock. -/

def prodB : Product :=
  { id := 2, title := "B", price := 50, shipping_ammount := 5, max_cart_limit := 10,
    stock_qty := 1, in_stock := true, status := "published" }

/-- Product C: stock 5, cart limit 10 (the accumulation scenario of spec §8). -/

def prodC : Product :=
  { id := 3, title := "C", price := 20, shipping_ammount := 2, max_cart_limit := 10,
    stock_qty := 5, in_stock := true, status := "published" }

/-- Cart line: 2 units of product A in cart "c1". -/

def lineA : CartItem :=
  { id := 1, cart_id := "c1", product_id := 1, qty := 2, price := 100, sub_total := 200,
    shipping_ammount := 20, tax_fee := 0, service_fee := 2, total := 222,
    color := "", size := "", country := "Paraguay" }

/-- Cart line: 5 units of product B in cart "c1" — more than its stock of 1. -/

def lineB : CartItem :=
  { id := 2, cart_id := "c1", product_id := 2, qty := 5, price := 50, sub_total := 250,
    shipping_ammount := 25, tax_fee := 0, service_fee := 5 / 2, total := 555 / 2,
    color := "", size := "", country := "Paraguay" }

/-- Cart line: 3 units of product C in cart "k" (the existing line item of the
accumulation scenario). -/

def lineC : CartItem :=
  { id := 1, cart_id := "k", product_id := 3, qty := 3, price := 20, sub_total := 60,
    shipping_ammount := 6, tax_fee := 0, service_fee := 3 / 5, total := 333 / 5,
    color := "No Color", size := "No Size", country := "PY" }

/-- Cart line: 1 unit of product A in cart "d" (before a quantity update). -/

def lineD : CartItem :=
  { id := 1, cart_id := "d", product_id := 1, qty := 1, price := 100, sub_total := 100,
    shipping_ammount := 10, tax_fee := 0, service_fee := 1, total := 111,
    color := "No Color", size := "No Size", country := "Paraguay" }

/-- Order item: 4 units of product A on order 7. -/

def itemW : CartOrderItem :=
  { order_oid := 7, product_id := 1, qty := 4, color := "", size := "", price := 100,
    sub_total := 400, shipping_ammount := 40, tax_fee := 0, service_fee := 4,
    total := 444, initial_total := 444 }

/-- Deferred-channel order 7, already marked paid. -/

def ordW : CartOrder :=
  { oid := 7, payment_method := "whatsapp", payment_status := "paid",
    order_status := "pending", sub_total := 400, shipping_ammount := 40, tax_fee := 0,
    service_fee := 4, total := 444 }

/-- The same order with the immediate payment method (precondition violation). -/

def ordStripe : CartOrder :=
  { ordW with payment_method := "stripe" }

/-- Store for the failing-checkout scenario: cart "c1" holds 2×A (stock 10)
and 5×B (stock 1), so the second line fails the locked re-check. -/

def stCheckout : Store :=
  { products := [prodA, prodB], colors := [], sizes := [], taxes := [],
    carts := [lineA, lineB], orders := [], orderItems := [] }

/-- Store with no cart rows at all (the empty-cart checkout scenario). -/

def stNoCart : Store :=
  { products := [prodA], colors := [], sizes := [], taxes := [], carts := [],
    orders := [], orderItems := [] }

/-- Store holding the paid WhatsApp order 7 over product A (stock 10). -/

def stSettle : Store :=
  { products := [prodA], colors := [], sizes := [], taxes := [], carts := [],
    orders := [ordW], orderItems := [itemW] }

/-- The store after one successful settlement of order 7: stock 10 → 6. -/

def stSettleAfter : Store :=
  { stSettle with products := [{ prodA with stock_qty := 6 }] }

/-- Store where product A has stock 2, below the quantity of order 7. -/

def stSettleLow : Store :=
  { stSettle with products := [{ prodA with stock_qty := 2 }] }

/-- Store for the accumulation scenario of spec §8: product C stock 5, cart
"k" already holds 3 units. -/

def stAccum : Store :=
  { products := [prodC], colors := [], sizes := [], taxes := [], carts := [lineC],
    orders := [], orderItems := [] }

/-- Cart-add payload: 3 more units of product C into cart "k". -/

def addPayAccum : CartAddPayload :=
  { product_id := 3, qty := 3, price := 20, shipping_ammount := 2, country := "PY",
    size := "", color := "", cart_id := "k" }

/-- Store with product A and no Tax record for any country. -/

def stTax : Store :=
  { products := [prodA], colors := [], sizes := [], taxes := [], carts := [],
    orders := [], orderItems := [] }

/-- Store with product A and an existing 1-unit cart line in cart "d". -/

def stTaxU : Store :=
  { stTax with carts := [lineD] }

/-- Cart-add payload: 2 units of product A, destination "Paraguay", unit price
100, per-unit shipping 10. -/

def addPayTax : CartAddPayload :=
  { product_id := 1, qty := 2, price := 100, shipping_ammount := 10,
    country := "Paraguay", size := "", color := "", cart_id := "d" }

/-- Cart line: 2 units of product A in cart "g" (a checkout that succeeds). -/

def lineG : CartItem :=
  { id := 9, cart_id := "g", product_id := 1, qty := 2, price := 100, sub_total := 200,
    shipping_ammount := 20, tax_fee := 0, service_fee := 2, total := 222,
    color := "No Color", size := "No Size", country := "Paraguay" }

/-- Store whose cart "g" checks out successfully against product A. -/

def stGood : Store :=
  { products := [prodA], colors := [], sizes := [], taxes := [], carts := [lineG],
    orders := [], orderItems := [] }

/-- Cart-add payload: 2 more units of product C into cart "k" (a combined
quantity of 5 that passes both ceilings). -/

def addPayAccum2 : CartAddPayload :=
  { addPayAccum with qty := 2 }

/-! ## Generic lemmas about keyed list updates -/


theorem updBy_map_key {α : Type} (key : α → Nat) (a : α) (l : List α) :
    (updBy key a l).map key = l.map key := by
  unfold updBy
  rw [List.map_map]
  apply List.map_congr_left
  intro x _
  by_cases h : key x = key a
  · simp [Function.comp_apply, h]
  · simp [Function.comp_apply, h]

theorem mem_updBy {α : Type} {key : α → Nat} {a : α} {l : List α} {x : α}
    (h : x ∈ updBy key a l) : x ∈ l ∨ x = a := by
  unfold updBy at h
  rcases List.mem_map.mp h with ⟨y, hy, hxy⟩
  by_cases hk : key y = key a
  · right
    simp only [hk, beq_self_eq_true, if_true] at hxy
    exact hxy.symm
  · left
    simp only [beq_iff_eq, hk, if_false] at hxy
    exact hxy ▸ hy

theorem updBy_map_of_fixed {α β : Type} (key : α → Nat) (f : α → β) (a : α) (l : List α)
    (hfix : ∀ x ∈ l, key x = key a → f a = f x) :
    (updBy key a l).map f = l.map f := by
  unfold updBy
  rw [List.map_map]
  apply List.map_congr_left
  intro x hx
  by_cases h : key x = key a
  · simp only [Function.comp_apply, beq_iff_eq, h, if_true]
    exact hfix x hx h
  · simp [Function.comp_apply, h]

theorem find?_updBy_of_pres {α : Type} (key : α → Nat) (q : α → Bool) (a : α) (l : List α)
    (hpres : ∀ x ∈ l, key x = key a → q a = q x) :
    (updBy key a l).find? q
      = (l.find? q).map (fun x => if key x == key a then a else x) := by
  induction l with
  | nil => rfl
  | cons x xs ih =>
    have hx : ∀ y ∈ xs, key y = key a → q a = q y := fun y hy => hpres y (List.mem_cons_of_mem x hy)
    by_cases hk : key x = key a
    · have hq : q a = q x := hpres x (List.mem_cons_self x xs) hk
      by_cases hqx : q x = true
      · simp [updBy, List.find?_cons, hk, hq, hqx]
      · simp only [updBy, List.map_cons, List.find?_cons, beq_iff_eq, hk, if_true,
          hq, hqx, if_false] at *
        simpa [updBy] using ih hx
    · by_cases hqx : q x = true
      · simp [updBy, List.find?_cons, hk, hqx]
      · simp only [updBy, List.map_cons, List.find?_cons, beq_iff_eq, hk, if_false, hqx] at *
        simpa [updBy] using ih hx

/-! ## Save lemmas -/


theorem Product.product_save_of_nonneg {p : Product} (h : 0 ≤ p.stock_qty) :
    Product.save p = some { p with in_stock := decide (0 < p.stock_qty) } := by
  unfold Product.save
  rw [if_neg (by omega)]

theorem Color.color_save_of_nonneg {c : Color} (h : 0 ≤ c.stock_qty) :
    Color.save c = some { c with in_stock := decide (0 < c.stock_qty) } := by
  unfold Color.save
  rw [if_neg (by omega)]

theorem Size.size_save_of_nonneg {s : Size} (h : 0 ≤ s.stock_qty) :
    Size.save s = some { s with in_stock := decide (0 < s.stock_qty) } := by
  unfold Size.save
  rw [if_neg (by omega)]

theorem Product.product_save_nonneg {p p2 : Product} (h : Product.save p = some p2) :
    0 ≤ p2.stock_qty := by
  unfold Product.save at h
  split at h
  · cases h
  · cases h
    show 0 ≤ p.stock_qty
    omega

theorem Color.color_save_nonneg {c c2 : Color} (h : Color.save c = some c2) :
    0 ≤ c2.stock_qty := by
  unfold Color.save at h
  split at h
  · cases h
  · cases h
    show 0 ≤ c.stock_qty
    omega

theorem Size.size_save_nonneg {s s2 : Size} (h : Size.save s = some s2) :
    0 ≤ s2.stock_qty := by
  unfold Size.save at h
  split at h
  · cases h
  · cases h
    show 0 ≤ s.stock_qty
    omega

/-! ## The deferred branch never touches stock -/


theorem processOneItem_whatsapp_stocks (oid : Nat) (ci : CartItem) (st : Store) :
    (stepState (processOneItem "whatsapp" oid ci st)).products = st.products ∧
    (stepState (processOneItem "whatsapp" oid ci st)).colors = st.colors ∧
    (stepState (processOneItem "whatsapp" oid ci st)).sizes = st.sizes := by
  unfold processOneItem
  cases hf : findProduct st ci.product_id with
  | none => exact ⟨rfl, rfl, rfl⟩
  | some product =>
    dsimp only
    by_cases hs : product.stock_qty < ci.qty
    · rw [if_pos hs]
      exact ⟨rfl, rfl, rfl⟩
    · rw [if_neg hs]
      cases hc : recheckColor st product ci with
      | error msg => exact ⟨rfl, rfl, rfl⟩
      | ok copt =>
        dsimp only
        cases hz : recheckSize st product ci with
        | error msg => exact ⟨rfl, rfl, rfl⟩
        | ok sopt =>
          dsimp only
          have hbne : (("whatsapp" : String) != "whatsapp") = false := rfl
          rw [hbne, if_neg Bool.false_ne_true]
          exact ⟨rfl, rfl, rfl⟩

theorem processOrderItems_whatsapp_stocks (oid : Nat) :
    ∀ (items : List CartItem) (st : Store) (tot : OrderTotals),
      (loopState (processOrderItems "whatsapp" oid items st tot)).products = st.products ∧
      (loopState (processOrderItems "whatsapp" oid items st tot)).colors = st.colors ∧
      (loopState (processOrderItems "whatsapp" oid items st tot)).sizes = st.sizes := by
  intro items
  induction items with
  | nil => exact fun st tot => ⟨rfl, rfl, rfl⟩
  | cons ci rest ih =>
    intro st tot
    have hone := processOneItem_whatsapp_stocks oid ci st
    unfold processOrderItems
    cases hstep : processOneItem "whatsapp" oid ci st with
    | error e =>
      rw [hstep] at hone
      exact hone
    | ok st2 =>
      rw [hstep] at hone
      simp only [stepState] at hone
      have h2 := ih st2 (tot.add ci)
      exact ⟨h2.1.trans hone.1, h2.2.1.trans hone.2.1, h2.2.2.trans hone.2.2⟩

theorem processOrderItems_whatsapp_res_stocks {oid : Nat} {items : List CartItem}
    {st1 : Store} {tot : OrderTotals} {res : Except (Store × String) (Store × OrderTotals)}
    (h : processOrderItems "whatsapp" oid items st1 tot = res) :
    (loopState res).products = st1.products ∧ (loopState res).colors = st1.colors ∧
    (loopState res).sizes = st1.sizes := by
  subst h
  exact processOrderItems_whatsapp_stocks oid items st1 tot

theorem createOrderWith_whatsapp_stocks (cart_id : String) (st : Store) :
    (createOrderWith "whatsapp" cart_id st).1.products = st.products ∧
    (createOrderWith "whatsapp" cart_id st).1.colors = st.colors ∧
    (createOrderWith "whatsapp" cart_id st).1.sizes = st.sizes := by
  unfold createOrderWith
  dsimp only
  split
  · rename_i st2 msg hres
    exact processOrderItems_whatsapp_res_stocks hres
  · rename_i pair st2 tot hres
    exact processOrderItems_whatsapp_res_stocks hres

/-! ## Non-negativity of every committed stock value -/


theorem stocksNonneg_updateProductRow {st : Store} {p2 : Product}
    (h : stocksNonneg st) (h2 : 0 ≤ p2.stock_qty) : stocksNonneg (updateProductRow st p2) := by
  obtain ⟨hp, hc, hs⟩ := h
  refine ⟨?_, hc, hs⟩
  intro x hx
  rcases mem_updBy hx with hmem | rfl
  · exact hp x hmem
  · exact h2

theorem stocksNonneg_updateColorRow {st : Store} {c2 : Color}
    (h : stocksNonneg st) (h2 : 0 ≤ c2.stock_qty) : stocksNonneg (updateColorRow st c2) := by
  obtain ⟨hp, hc, hs⟩ := h
  refine ⟨hp, ?_, hs⟩
  intro x hx
  rcases mem_updBy hx with hmem | rfl
  · exact hc x hmem
  · exact h2

theorem stocksNonneg_updateSizeRow {st : Store} {s2 : Size}
    (h : stocksNonneg st) (h2 : 0 ≤ s2.stock_qty) : stocksNonneg (updateSizeRow st s2) := by
  obtain ⟨hp, hc, hs⟩ := h
  refine ⟨hp, hc, ?_⟩
  intro x hx
  rcases mem_updBy hx with hmem | rfl
  · exact hs x hmem
  · exact h2

theorem commitSizeStock_nonneg (sizeOpt : Option Size) (qty : Int) (st : Store)
    (h : stocksNonneg st) : stocksNonneg (stepState (commitSizeStock sizeOpt qty st)) := by
  unfold commitSizeStock
  cases sizeOpt with
  | none => exact h
  | some s =>
    dsimp only
    cases hsv : Size.save { s with stock_qty := s.stock_qty - qty } with
    | none => exact h
    | some s2 => exact stocksNonneg_updateSizeRow h (Size.size_save_nonneg hsv)

theorem commitColorStock_nonneg (colorOpt : Option Color) (qty : Int) (st : Store)
    (h : stocksNonneg st) : stocksNonneg (stepState (commitColorStock colorOpt qty st)) := by
  unfold commitColorStock
  cases colorOpt with
  | none => exact h
  | some c =>
    dsimp only
    cases hcv : Color.save { c with stock_qty := c.stock_qty - qty } with
    | none => exact h
    | some c2 => exact stocksNonneg_updateColorRow h (Color.color_save_nonneg hcv)

theorem commitItemStock_nonneg (product : Product) (colorOpt : Option Color)
    (sizeOpt : Option Size) (qty : Int) (st : Store) (h : stocksNonneg st) :
    stocksNonneg (stepState (commitItemStock product colorOpt sizeOpt qty st)) := by
  unfold commitItemStock
  cases hpv : Product.save { product with stock_qty := product.stock_qty - qty } with
  | none => exact h
  | some p2 =>
    dsimp only
    have h1 : stocksNonneg (updateProductRow st p2) :=
      stocksNonneg_updateProductRow h (Product.product_save_nonneg hpv)
    have h2 := commitColorStock_nonneg colorOpt qty (updateProductRow st p2) h1
    cases hcv : commitColorStock colorOpt qty (updateProductRow st p2) with
    | error e =>
      rw [hcv] at h2
      exact h2
    | ok st2 =>
      rw [hcv] at h2
      simp only [stepState] at h2
      exact commitSizeStock_nonneg sizeOpt qty st2 h2

theorem processOneItem_nonneg (pm : String) (oid : Nat) (ci : CartItem) (st : Store)
    (h : stocksNonneg st) : stocksNonneg (stepState (processOneItem pm oid ci st)) := by
  unfold processOneItem
  cases hf : findProduct st ci.product_id with
  | none => exact h
  | some product =>
    dsimp only
    by_cases hs : product.stock_qty < ci.qty
    · rw [if_pos hs]
      exact h
    · rw [if_neg hs]
      cases hc : recheckColor st product ci with
      | error msg => exact h
      | ok copt =>
        dsimp only
        cases hz : recheckSize st product ci with
        | error msg => exact h
        | ok sopt =>
          dsimp only
          by_cases hpm : (pm != "whatsapp") = true
          · rw [if_pos hpm]
            exact commitItemStock_nonneg product copt sopt ci.qty _ h
          · rw [if_neg hpm]
            exact h

theorem processOrderItems_nonneg (pm : String) (oid : Nat) :
    ∀ (items : List CartItem) (st : Store) (tot : OrderTotals),
      stocksNonneg st → stocksNonneg (loopState (processOrderItems pm oid items st tot)) := by
  intro items
  induction items with
  | nil => exact fun st tot h => h
  | cons ci rest ih =>
    intro st tot h
    have hone := processOneItem_nonneg pm oid ci st h
    unfold processOrderItems
    cases hstep : processOneItem pm oid ci st with
    | error e =>
      rw [hstep] at hone
      exact hone
    | ok st2 =>
      rw [hstep] at hone
      simp only [stepState] at hone
      exact ih st2 (tot.add ci) hone

theorem processOrderItems_res_nonneg {pm : String} {oid : Nat} {items : List CartItem}
    {st1 : Store} {tot : OrderTotals} {res : Except (Store × String) (Store × OrderTotals)}
    (hres : processOrderItems pm oid items st1 tot = res) (h : stocksNonneg st1) :
    stocksNonneg (loopState res) := by
  subst hres
  exact processOrderItems_nonneg pm oid items st1 tot h

theorem createOrderWith_nonneg (pm : String) (cart_id : String) (st : Store)
    (h : stocksNonneg st) : stocksNonneg (createOrderWith pm cart_id st).1 := by
  unfold createOrderWith
  dsimp only
  split
  · rename_i st2 msg hres
    exact processOrderItems_res_nonneg hres h
  · rename_i pair st2 tot hres
    have h2 := processOrderItems_res_nonneg hres h
    simp only [loopState] at h2
    exact h2

theorem settleColorStep_nonneg (product : Product) (item : CartOrderItem) (st : Store)
    (h : stocksNonneg st) : stocksNonneg (stepState (settleColorStep product item st)) := by
  unfold settleColorStep
  split
  · cases hfc : findColor st product.id item.color with
    | none => exact h
    | some c =>
      dsimp only
      cases hcv : Color.save { c with stock_qty := c.stock_qty - item.qty } with
      | none => exact h
      | some c2 => exact stocksNonneg_updateColorRow h (Color.color_save_nonneg hcv)
  · exact h

theorem settleSizeStep_nonneg (product : Product) (item : CartOrderItem) (st : Store)
    (h : stocksNonneg st) : stocksNonneg (stepState (settleSizeStep product item st)) := by
  unfold settleSizeStep
  split
  · cases hfs : findSize st product.id item.size with
    | none => exact h
    | some s =>
      dsimp only
      cases hsv : Size.save { s with stock_qty := s.stock_qty - item.qty } with
      | none => exact h
      | some s2 => exact stocksNonneg_updateSizeRow h (Size.size_save_nonneg hsv)
  · exact h

theorem settleOneItem_nonneg (item : CartOrderItem) (st : Store)
    (h : stocksNonneg st) : stocksNonneg (stepState (settleOneItem item st)) := by
  unfold settleOneItem
  cases hf : findProduct st item.product_id with
  | none => exact h
  | some product =>
    dsimp only
    cases hpv : Product.save { product with stock_qty := product.stock_qty - item.qty } with
    | none => exact h
    | some p2 =>
      dsimp only
      have h1 : stocksNonneg (updateProductRow st p2) :=
        stocksNonneg_updateProductRow h (Product.product_save_nonneg hpv)
      have h2 := settleColorStep_nonneg product item (updateProductRow st p2) h1
      cases hcs : settleColorStep product item (updateProductRow st p2) with
      | error e =>
        rw [hcs] at h2
        exact h2
      | ok st2 =>
        rw [hcs] at h2
        simp only [stepState] at h2
        exact settleSizeStep_nonneg product item st2 h2

theorem settleItems_nonneg :
    ∀ (items : List CartOrderItem) (st : Store), stocksNonneg st →
      stocksNonneg (stepState (settleItems items st)) := by
  intro items
  induction items with
  | nil => exact fun st h => h
  | cons item rest ih =>
    intro st h
    have hone := settleOneItem_nonneg item st h
    unfold settleItems
    cases hstep : settleOneItem item st with
    | error e =>
      rw [hstep] at hone
      exact hone
    | ok st2 =>
      rw [hstep] at hone
      simp only [stepState] at hone
      exact ih st2 hone

theorem reduceStock_nonneg (st : Store) (o : CartOrder) (h : stocksNonneg st) :
    stocksNonneg (reduceStockForWhatsappOrder st o).1 := by
  unfold reduceStockForWhatsappOrder
  split
  · have hloop := settleItems_nonneg (orderLines st o.oid) st h
    cases hres : settleItems (orderLines st o.oid) st with
    | error e =>
      rw [hres] at hloop
      exact hloop
    | ok st2 =>
      rw [hres] at hloop
      exact hloop
  · exact h

theorem Product.product_save_dec {p : Product} {qty : Int} (h : 0 ≤ p.stock_qty - qty) :
    Product.save { p with stock_qty := p.stock_qty - qty } = some (decProduct p qty) :=
  Product.product_save_of_nonneg h

theorem Color.color_save_dec {c : Color} {qty : Int} (h : 0 ≤ c.stock_qty - qty) :
    Color.save { c with stock_qty := c.stock_qty - qty } = some (decColor c qty) :=
  Color.color_save_of_nonneg h

theorem Size.size_save_dec {s : Size} {qty : Int} (h : 0 ≤ s.stock_qty - qty) :
    Size.save { s with stock_qty := s.stock_qty - qty } = some (decSize s qty) :=
  Size.size_save_of_nonneg h

theorem commitItemStock_ok (product : Product) (copt : Option Color) (sopt : Option Size)
    (qty : Int) (st : Store)
    (hq : 0 ≤ product.stock_qty - qty)
    (hc : ∀ c, copt = some c → 0 ≤ c.stock_qty - qty)
    (hs : ∀ s, sopt = some s → 0 ≤ s.stock_qty - qty) :
    commitItemStock product copt sopt qty st = .ok (stepCommit product copt sopt qty st) := by
  unfold commitItemStock stepCommit
  rw [Product.product_save_dec hq]
  dsimp only
  cases copt with
  | none =>
    dsimp only [commitColorStock]
    cases sopt with
    | none => rfl
    | some s =>
      dsimp only [commitSizeStock]
      rw [Size.size_save_dec (hs s rfl)]
  | some c =>
    dsimp only [commitColorStock]
    rw [Color.color_save_dec (hc c rfl)]
    dsimp only
    cases sopt with
    | none => rfl
    | some s =>
      dsimp only [commitSizeStock]
      rw [Size.size_save_dec (hs s rfl)]

/-! ## Inversion of the locked re-checks -/


theorem recheckColor_ok_none {st : Store} {product : Product} {ci : CartItem}
    (h : recheckColor st product ci = .ok none) : chosenColor ci = false := by
  by_cases hch : chosenColor ci = true
  · exfalso
    unfold recheckColor at h
    rw [if_pos hch] at h
    cases hfc : findColor st product.id ci.color with
    | none =>
      rw [hfc] at h
      cases h
    | some c =>
      rw [hfc] at h
      dsimp only at h
      by_cases hlt : c.stock_qty < ci.qty
      · rw [if_pos hlt] at h
        cases h
      · rw [if_neg hlt] at h
        simp at h
  · simpa using hch

theorem recheckColor_ok_some {st : Store} {product : Product} {ci : CartItem} {c : Color}
    (h : recheckColor st product ci = .ok (some c)) :
    chosenColor ci = true ∧ findColor st product.id ci.color = some c
      ∧ ¬(c.stock_qty < ci.qty) := by
  unfold recheckColor at h
  by_cases hch : chosenColor ci = true
  · rw [if_pos hch] at h
    cases hfc : findColor st product.id ci.color with
    | none =>
      rw [hfc] at h
      cases h
    | some d =>
      rw [hfc] at h
      dsimp only at h
      by_cases hlt : d.stock_qty < ci.qty
      · rw [if_pos hlt] at h
        cases h
      · rw [if_neg hlt] at h
        have hdc : d = c := by simpa using h
        subst hdc
        exact ⟨hch, rfl, hlt⟩
  · rw [if_neg hch] at h
    simp at h

theorem recheckSize_ok_none {st : Store} {product : Product} {ci : CartItem}
    (h : recheckSize st product ci = .ok none) : chosenSize ci = false := by
  by_cases hch : chosenSize ci = true
  · exfalso
    unfold recheckSize at h
    rw [if_pos hch] at h
    cases hfs : findSize st product.id ci.size with
    | none =>
      rw [hfs] at h
      cases h
    | some s =>
      rw [hfs] at h
      dsimp only at h
      by_cases hlt : s.stock_qty < ci.qty
      · rw [if_pos hlt] at h
        cases h
      · rw [if_neg hlt] at h
        simp at h
  · simpa using hch

theorem recheckSize_ok_some {st : Store} {product : Product} {ci : CartItem} {s : Size}
    (h : recheckSize st product ci = .ok (some s)) :
    chosenSize ci = true ∧ findSize st product.id ci.size = some s
      ∧ ¬(s.stock_qty < ci.qty) := by
  unfold recheckSize at h
  by_cases hch : chosenSize ci = true
  · rw [if_pos hch] at h
    cases hfs : findSize st product.id ci.size with
    | none =>
      rw [hfs] at h
      cases h
    | some d =>
      rw [hfs] at h
      dsimp only at h
      by_cases hlt : d.stock_qty < ci.qty
      · rw [if_pos hlt] at h
        cases h
      · rw [if_neg hlt] at h
        have hdc : d = s := by simpa using h
        subst hdc
        exact ⟨hch, rfl, hlt⟩
  · rw [if_neg hch] at h
    simp at h

theorem processOneItem_ok_inv {pm : String} {oid : Nat} {ci : CartItem} {st st2 : Store}
    (hpm : pm ≠ "whatsapp") (h : processOneItem pm oid ci st = .ok st2) :
    ∃ product copt sopt,
      findProduct st ci.product_id = some product ∧
      ¬(product.stock_qty < ci.qty) ∧
      recheckColor st product ci = .ok copt ∧
      recheckSize st product ci = .ok sopt ∧
      st2 = stepCommit product copt sopt ci.qty
        { st with orderItems := st.orderItems ++ [mkOrderItem oid product ci] } := by
  unfold processOneItem at h
  cases hf : findProduct st ci.product_id with
  | none =>
    rw [hf] at h
    cases h
  | some product =>
    rw [hf] at h
    dsimp only at h
    by_cases hq : product.stock_qty < ci.qty
    · rw [if_pos hq] at h
      cases h
    · rw [if_neg hq] at h
      cases hc : recheckColor st product ci with
      | error msg =>
        rw [hc] at h
        cases h
      | ok copt =>
        rw [hc] at h
        dsimp only at h
        cases hz : recheckSize st product ci with
        | error msg =>
          rw [hz] at h
          cases h
        | ok sopt =>
          rw [hz] at h
          dsimp only at h
          have hbne : (pm != "whatsapp") = true := by simpa [bne_iff_ne] using hpm
          rw [if_pos hbne] at h
          have hq2 : 0 ≤ product.stock_qty - ci.qty := by omega
          have hc2 : ∀ c, copt = some c → 0 ≤ c.stock_qty - ci.qty := by
            intro c hcc
            subst hcc
            have := (recheckColor_ok_some hc).2.2
            omega
          have hs2 : ∀ s, sopt = some s → 0 ≤ s.stock_qty - ci.qty := by
            intro s hss
            subst hss
            have := (recheckSize_ok_some hz).2.2
            omega
          rw [commitItemStock_ok product copt sopt ci.qty _ hq2 hc2 hs2] at h
          exact ⟨product, copt, sopt, rfl, hq, hc, hz, (Except.ok.inj h).symm⟩

/-! ## Table-level effect of one committed line -/


theorem stepCommit_products (product : Product) (copt : Option Color) (sopt : Option Size)
    (qty : Int) (st : Store) :
    (stepCommit product copt sopt qty st).products
      = updBy (fun q => q.id) (decProduct product qty) st.products := by
  unfold stepCommit
  cases copt <;> cases sopt <;> rfl

theorem stepCommit_colors (product : Product) (copt : Option Color) (sopt : Option Size)
    (qty : Int) (st : Store) :
    (stepCommit product copt sopt qty st).colors
      = (match copt with
        | none => st.colors
        | some c => updBy (fun d => d.id) (decColor c qty) st.colors) := by
  unfold stepCommit
  cases copt <;> cases sopt <;> rfl

theorem stepCommit_sizes (product : Product) (copt : Option Color) (sopt : Option Size)
    (qty : Int) (st : Store) :
    (stepCommit product copt sopt qty st).sizes
      = (match sopt with
        | none => st.sizes
        | some s => updBy (fun t => t.id) (decSize s qty) st.sizes) := by
  unfold stepCommit
  cases copt <;> cases sopt <;> rfl

/-! ## Stock views after one committed line -/


theorem processOneItem_ok_productStock {pm : String} {oid : Nat} {ci : CartItem}
    {st st2 : Store} (hpm : pm ≠ "whatsapp") (h : processOneItem pm oid ci st = .ok st2)
    (pid : Nat) :
    productStock st2 pid = (productStock st pid).map
      (fun v => v - (if ci.product_id == pid then ci.qty else 0)) := by
  obtain ⟨product, copt, sopt, hf, hq, hc, hz, rfl⟩ := processOneItem_ok_inv hpm h
  have hf2 := hf
  unfold findProduct at hf2
  have hpid : product.id = ci.product_id := by
    have h3 := List.find?_some hf2
    simpa [beq_iff_eq] using h3
  unfold productStock findProduct
  rw [stepCommit_products]
  dsimp only
  rw [find?_updBy_of_pres (fun q => q.id) (fun p => p.id == pid) (decProduct product ci.qty)
    st.products (by
      intro x hx hxk
      have hxk2 : x.id = product.id := hxk
      show ((decProduct product ci.qty).id == pid) = (x.id == pid)
      have hdid : (decProduct product ci.qty).id = product.id := rfl
      rw [hdid, hxk2])]
  by_cases hp : ci.product_id = pid
  · subst hp
    rw [hf2]
    simp [decProduct, hpid]
  · cases hfind : st.products.find? (fun p => p.id == pid) with
    | none => simp
    | some d =>
      have hd : d.id = pid := by
        have h3 := List.find?_some hfind
        simpa [beq_iff_eq] using h3
      have hneq : ¬(d.id = (decProduct product ci.qty).id) := by
        have hdid : (decProduct product ci.qty).id = product.id := rfl
        rw [hdid]
        intro hcontra
        apply hp
        omega
      simp [hneq, hp]

theorem find?_colorPair_updBy {l : List Color} (hnodup : (l.map (fun c => c.id)).Nodup)
    {c : Color} (hmem : c ∈ l) (c2 : Color) (hid : c2.id = c.id)
    (hpi : c2.product_id = c.product_id) (hnm : c2.name = c.name)
    (pid : Nat) (nm : String) :
    (updBy (fun d => d.id) c2 l).find? (fun d => d.product_id == pid && d.name == nm)
      = ((l.find? (fun d => d.product_id == pid && d.name == nm)).map
          (fun d => if d.id == c.id then c2 else d)) := by
  rw [find?_updBy_of_pres (fun d => d.id) (fun d => d.product_id == pid && d.name == nm) c2 l
    (by
      intro x hx hxk
      have hxk2 : x.id = c2.id := hxk
      have hxc : x = c := List.inj_on_of_nodup_map hnodup hx hmem (by
        show x.id = c.id
        rw [hxk2, hid])
      show (c2.product_id == pid && c2.name == nm) = (x.product_id == pid && x.name == nm)
      rw [hxc, hpi, hnm])]
  simp only [hid]

theorem find?_sizePair_updBy {l : List Size} (hnodup : (l.map (fun s => s.id)).Nodup)
    {s : Size} (hmem : s ∈ l) (s2 : Size) (hid : s2.id = s.id)
    (hpi : s2.product_id = s.product_id) (hnm : s2.name = s.name)
    (pid : Nat) (nm : String) :
    (updBy (fun t => t.id) s2 l).find? (fun t => t.product_id == pid && t.name == nm)
      = ((l.find? (fun t => t.product_id == pid && t.name == nm)).map
          (fun t => if t.id == s.id then s2 else t)) := by
  rw [find?_updBy_of_pres (fun t => t.id) (fun t => t.product_id == pid && t.name == nm) s2 l
    (by
      intro x hx hxk
      have hxk2 : x.id = s2.id := hxk
      have hxc : x = s := List.inj_on_of_nodup_map hnodup hx hmem (by
        show x.id = s.id
        rw [hxk2, hid])
      show (s2.product_id == pid && s2.name == nm) = (x.product_id == pid && x.name == nm)
      rw [hxc, hpi, hnm])]
  simp only [hid]

theorem processOneItem_ok_colorView {pm : String} {oid : Nat} {ci : CartItem}
    {st st2 : Store} (hpm : pm ≠ "whatsapp")
    (hnodup : (st.colors.map (fun c => c.id)).Nodup)
    (h : processOneItem pm oid ci st = .ok st2) (pid : Nat) (nm : String) :
    colorStockView st2 pid nm = (colorStockView st pid nm).map
      (fun v => v - (if chosenColor ci && ci.product_id == pid && ci.color == nm
        then ci.qty else 0)) := by
  obtain ⟨product, copt, sopt, hf, hq, hc, hz, rfl⟩ := processOneItem_ok_inv hpm h
  have hf2 := hf
  unfold findProduct at hf2
  have hpid : product.id = ci.product_id := by
    have h3 := List.find?_some hf2
    simpa [beq_iff_eq] using h3
  unfold colorStockView findColor
  rw [stepCommit_colors]
  cases copt with
  | none =>
    have hch : chosenColor ci = false := recheckColor_ok_none hc
    dsimp only
    rw [hch]
    cases hfind : st.colors.find? (fun c => c.product_id == pid && c.name == nm) with
    | none => simp
    | some d => simp
  | some c =>
    obtain ⟨hch, hfc, hlt⟩ := recheckColor_ok_some hc
    have hfc2 := hfc
    unfold findColor at hfc2
    have hcprod : c.product_id = product.id ∧ c.name = ci.color := by
      have h3 := List.find?_some hfc2
      simpa only [Bool.and_eq_true, beq_iff_eq] using h3
    have hmem : c ∈ st.colors := List.mem_of_find?_eq_some hfc2
    dsimp only
    rw [find?_colorPair_updBy hnodup hmem (decColor c ci.qty) rfl rfl rfl pid nm]
    by_cases hpn : ci.product_id = pid ∧ ci.color = nm
    · obtain ⟨hp1, hp2⟩ := hpn
      subst hp1
      subst hp2
      have heq : st.colors.find? (fun d => d.product_id == ci.product_id && d.name == ci.color)
          = some c := by
        simp only [← hpid]
        exact hfc2
      rw [heq]
      simp [decColor, hch]
    · cases hfind : st.colors.find? (fun d => d.product_id == pid && d.name == nm) with
      | none => simp
      | some d =>
        have hdprod : d.product_id = pid ∧ d.name = nm := by
          have h3 := List.find?_some hfind
          simpa only [Bool.and_eq_true, beq_iff_eq] using h3
        have hdmem : d ∈ st.colors := List.mem_of_find?_eq_some hfind
        have hdc : ¬(d.id = c.id) := by
          intro hcontra
          have hxc : d = c := List.inj_on_of_nodup_map hnodup hdmem hmem hcontra
          subst hxc
          exact hpn ⟨by rw [← hdprod.1, hcprod.1, hpid], by rw [← hdprod.2, hcprod.2]⟩
        have hcond : (chosenColor ci && ci.product_id == pid && ci.color == nm) = false := by
          by_cases hc1 : ci.product_id = pid
          · by_cases hc2 : ci.color = nm
            · exact absurd ⟨hc1, hc2⟩ hpn
            · simp [hc2]
          · simp [hc1]
        simp [hdc, hcond]

theorem processOneItem_ok_sizeView {pm : String} {oid : Nat} {ci : CartItem}
    {st st2 : Store} (hpm : pm ≠ "whatsapp")
    (hnodup : (st.sizes.map (fun s => s.id)).Nodup)
    (h : processOneItem pm oid ci st = .ok st2) (pid : Nat) (nm : String) :
    sizeStockView st2 pid nm = (sizeStockView st pid nm).map
      (fun v => v - (if chosenSize ci && ci.product_id == pid && ci.size == nm
        then ci.qty else 0)) := by
  obtain ⟨product, copt, sopt, hf, hq, hc, hz, rfl⟩ := processOneItem_ok_inv hpm h
  have hf2 := hf
  unfold findProduct at hf2
  have hpid : product.id = ci.product_id := by
    have h3 := List.find?_some hf2
    simpa [beq_iff_eq] using h3
  unfold sizeStockView findSize
  rw [stepCommit_sizes]
  cases sopt with
  | none =>
    have hch : chosenSize ci = false := recheckSize_ok_none hz
    dsimp only
    rw [hch]
    cases hfind : st.sizes.find? (fun s => s.product_id == pid && s.name == nm) with
    | none => simp
    | some d => simp
  | some s =>
    obtain ⟨hch, hfs, hlt⟩ := recheckSize_ok_some hz
    have hfs2 := hfs
    unfold findSize at hfs2
    have hsprod : s.product_id = product.id ∧ s.name = ci.size := by
      have h3 := List.find?_some hfs2
      simpa only [Bool.and_eq_true, beq_iff_eq] using h3
    have hmem : s ∈ st.sizes := List.mem_of_find?_eq_some hfs2
    dsimp only
    rw [find?_sizePair_updBy hnodup hmem (decSize s ci.qty) rfl rfl rfl pid nm]
    by_cases hpn : ci.product_id = pid ∧ ci.size = nm
    · obtain ⟨hp1, hp2⟩ := hpn
      subst hp1
      subst hp2
      have heq : st.sizes.find? (fun t => t.product_id == ci.product_id && t.name == ci.size)
          = some s := by
        simp only [← hpid]
        exact hfs2
      rw [heq]
      simp [decSize, hch]
    · cases hfind : st.sizes.find? (fun t => t.product_id == pid && t.name == nm) with
      | none => simp
      | some d =>
        have hdprod : d.product_id = pid ∧ d.name = nm := by
          have h3 := List.find?_some hfind
          simpa only [Bool.and_eq_true, beq_iff_eq] using h3
        have hdmem : d ∈ st.sizes := List.mem_of_find?_eq_some hfind
        have hdc : ¬(d.id = s.id) := by
          intro hcontra
          have hxc : d = s := List.inj_on_of_nodup_map hnodup hdmem hmem hcontra
          subst hxc
          exact hpn ⟨by rw [← hdprod.1, hsprod.1, hpid], by rw [← hdprod.2, hsprod.2]⟩
        have hcond : (chosenSize ci && ci.product_id == pid && ci.size == nm) = false := by
          by_cases hc1 : ci.product_id = pid
          · by_cases hc2 : ci.size = nm
            · exact absurd ⟨hc1, hc2⟩ hpn
            · simp [hc2]
          · simp [hc1]
        simp [hdc, hcond]

theorem processOneItem_ok_ids {pm : String} {oid : Nat} {ci : CartItem} {st st2 : Store}
    (hpm : pm ≠ "whatsapp") (h : processOneItem pm oid ci st = .ok st2) :
    st2.products.map (fun p => p.id) = st.products.map (fun p => p.id) ∧
    st2.colors.map (fun c => c.id) = st.colors.map (fun c => c.id) ∧
    st2.sizes.map (fun s => s.id) = st.sizes.map (fun s => s.id) := by
  obtain ⟨product, copt, sopt, hf, hq, hc, hz, rfl⟩ := processOneItem_ok_inv hpm h
  refine ⟨?_, ?_, ?_⟩
  · rw [stepCommit_products]
    exact updBy_map_key (fun q => q.id) (decProduct product ci.qty) st.products
  · rw [stepCommit_colors]
    cases copt with
    | none => rfl
    | some c => exact updBy_map_key (fun d => d.id) (decColor c ci.qty) st.colors
  · rw [stepCommit_sizes]
    cases sopt with
    | none => rfl
    | some s => exact updBy_map_key (fun t => t.id) (decSize s ci.qty) st.sizes

/-! ## Stock views over the whole successful loop -/


theorem cartQtySum_cons (ci : CartItem) (rest : List CartItem) (pid : Nat) :
    cartQtySum (ci :: rest) pid
      = (if ci.product_id == pid then ci.qty else 0) + cartQtySum rest pid := by
  simp [cartQtySum]

theorem colorQtySum_cons (ci : CartItem) (rest : List CartItem) (pid : Nat) (nm : String) :
    colorQtySum (ci :: rest) pid nm
      = (if chosenColor ci && ci.product_id == pid && ci.color == nm then ci.qty else 0)
        + colorQtySum rest pid nm := by
  simp [colorQtySum]

theorem sizeQtySum_cons (ci : CartItem) (rest : List CartItem) (pid : Nat) (nm : String) :
    sizeQtySum (ci :: rest) pid nm
      = (if chosenSize ci && ci.product_id == pid && ci.size == nm then ci.qty else 0)
        + sizeQtySum rest pid nm := by
  simp [sizeQtySum]

theorem processOrderItems_ok_stocks (pm : String) (oid : Nat) (hpm : pm ≠ "whatsapp") :
    ∀ (items : List CartItem) (st : Store) (tot : OrderTotals) (st2 : Store)
      (tot2 : OrderTotals),
      uniqueIds st →
      processOrderItems pm oid items st tot = .ok (st2, tot2) →
      (∀ pid, productStock st2 pid = (productStock st pid).map
        (fun v => v - cartQtySum items pid)) ∧
      (∀ pid nm, colorStockView st2 pid nm = (colorStockView st pid nm).map
        (fun v => v - colorQtySum items pid nm)) ∧
      (∀ pid nm, sizeStockView st2 pid nm = (sizeStockView st pid nm).map
        (fun v => v - sizeQtySum items pid nm)) := by
  intro items
  induction items with
  | nil =>
    intro st tot st2 tot2 hu h
    unfold processOrderItems at h
    have hpair : (st, tot) = (st2, tot2) := Except.ok.inj h
    have hst : st = st2 := congrArg Prod.fst hpair
    subst hst
    refine ⟨fun pid => ?_, fun pid nm => ?_, fun pid nm => ?_⟩
    · cases productStock st pid <;> simp [cartQtySum]
    · cases colorStockView st pid nm <;> simp [colorQtySum]
    · cases sizeStockView st pid nm <;> simp [sizeQtySum]
  | cons ci rest ih =>
    intro st tot st2 tot2 hu h
    unfold processOrderItems at h
    cases hstep : processOneItem pm oid ci st with
    | error e =>
      rw [hstep] at h
      cases h
    | ok stMid =>
      rw [hstep] at h
      dsimp only at h
      have hids := processOneItem_ok_ids hpm hstep
      have huMid : uniqueIds stMid := by
        obtain ⟨hu1, hu2, hu3⟩ := hu
        refine ⟨?_, ?_, ?_⟩
        · rw [hids.1]
          exact hu1
        · rw [hids.2.1]
          exact hu2
        · rw [hids.2.2]
          exact hu3
      have hmain := ih stMid (tot.add ci) st2 tot2 huMid h
      refine ⟨fun pid => ?_, fun pid nm => ?_, fun pid nm => ?_⟩
      · rw [hmain.1 pid, processOneItem_ok_productStock hpm hstep pid]
        cases hview : productStock st pid with
        | none => rfl
        | some v =>
          simp only [Option.map_some']
          rw [cartQtySum_cons, sub_sub]
      · rw [hmain.2.1 pid nm, processOneItem_ok_colorView hpm hu.2.1 hstep pid nm]
        cases hview : colorStockView st pid nm with
        | none => rfl
        | some v =>
          simp only [Option.map_some']
          rw [colorQtySum_cons, sub_sub]
      · rw [hmain.2.2 pid nm, processOneItem_ok_sizeView hpm hu.2.2 hstep pid nm]
        cases hview : sizeStockView st pid nm with
        | none => rfl
        | some v =>
          simp only [Option.map_some']
          rw [sizeQtySum_cons, sub_sub]

theorem createOrderWith_ok_stocks {pm cart_id : String} {st st2 : Store} {oid : Nat}
    (hpm : pm ≠ "whatsapp") (hu : uniqueIds st)
    (h : createOrderWith pm cart_id st = (st2, .success oid)) :
    (∀ pid, productStock st2 pid = (productStock st pid).map
      (fun v => v - cartQtySum (cartLines st cart_id) pid)) ∧
    (∀ pid nm, colorStockView st2 pid nm = (colorStockView st pid nm).map
      (fun v => v - colorQtySum (cartLines st cart_id) pid nm)) ∧
    (∀ pid nm, sizeStockView st2 pid nm = (sizeStockView st pid nm).map
      (fun v => v - sizeQtySum (cartLines st cart_id) pid nm)) := by
  unfold createOrderWith at h
  dsimp only at h
  split at h
  · simp at h
  · rename_i pair stMid tot hres
    have h1 := congrArg Prod.fst h
    dsimp only at h1
    subst h1
    obtain ⟨hP, hC, hS⟩ := processOrderItems_ok_stocks pm (freshOrderOid st) hpm _ _
      OrderTotals.zero stMid tot (by exact hu) hres
    exact ⟨fun pid => hP pid, fun pid nm => hC pid nm, fun pid nm => hS pid nm⟩

/-! ## Claim theorems: directly evaluable claims -/


/-- C1 (code bug): the claim says any exception during the order-creation
steps rolls back the whole transaction, leaving the persistent state equal to
the pre-call state.  The source instead catches the exception INSIDE the
`transaction.atomic()` block and returns a 400 response, so the block exits
normally and commits the partial work.  Concretely: checking out cart "c1"
(2×A then 5×B with B's stock at 1) fails on line B, yet the committed state
keeps the Order row, the OrderItem for A, and A's stock decrement 10 → 8. -/

theorem C1_checkout_failure_commits_partial_state :
    (createOrder { cart_id := "c1", payment_method := some "stripe" } stCheckout).2
      = .failure "Not enough stock for B. Available: 1" ∧
    (createOrder { cart_id := "c1", payment_method := some "stripe" } stCheckout).1.orders.length
      = 1 ∧
    (createOrder { cart_id := "c1", payment_method := some "stripe" } stCheckout).1.orderItems.length
      = 1 ∧
    productStock (createOrder { cart_id := "c1", payment_method := some "stripe" } stCheckout).1 1
      = some 8 ∧
    (createOrder { cart_id := "c1", payment_method := some "stripe" } stCheckout).1
      ≠ stCheckout := by
  with_unfolding_all decide

/-- C3 (code bug): the claim says settlement never decrements stock twice for
the same paid order.  `reduce_stock_for_whatsapp_order` keeps no record of
having run and its only guard is the payment_method/payment_status check, so
a second invocation on the still-paid order decrements again: product A's
stock goes 10 → 6 → 2 and both calls report success. -/

theorem C3_second_settlement_decrements_again :
    (reduceStockForWhatsappOrder stSettle ordW).2 = .ok true ∧
    productStock (reduceStockForWhatsappOrder stSettle ordW).1 1 = some 6 ∧
    (reduceStockForWhatsappOrder (reduceStockForWhatsappOrder stSettle ordW).1 ordW).2
      = .ok true ∧
    productStock
      (reduceStockForWhatsappOrder (reduceStockForWhatsappOrder stSettle ordW).1 ordW).1 1
      = some 2 := by
  with_unfolding_all decide

/-- C6 (code bug): the claim says a checkout whose cart_id has no line items
is rejected with no Order created.  The source never checks for an empty
cart: the item loop simply runs zero times, and an Order row with all-zero
totals is created and reported as success. -/

theorem C6_empty_cart_creates_an_order :
    (createOrder { cart_id := "c9", payment_method := none } stNoCart).2 = .success 1 ∧
    (createOrder { cart_id := "c9", payment_method := none } stNoCart).1.orders.length = 1 := by
  with_unfolding_all decide

/-- C8 (code bug): the claim says cart add and cart quantity update reproduce
the identical price-breakdown formula, with the tax rate taken from the
destination country (0 with no Tax record).  On the same product, unit price
100, quantity 2, country "Paraguay" (no Tax record) and per-unit shipping 10,
the add path stores the spec formula with tax 0, while the update path stores
`sub_total * Decimal(0.1)` — a hard-coded 10% tax of 20 — so the two paths
disagree. -/

theorem C8_update_path_hardcodes_ten_percent_tax :
    ((cartAdd addPayTax stTax).1.carts.map CartItem.breakdown
      = [specBreakdown 100 10 2 (taxRateFor stTax "Paraguay")]) ∧
    taxRateFor stTax "Paraguay" = 0 ∧
    ((cartUpdate "d" 1 2 stTaxU).1.carts.map CartItem.breakdown
      = [{ sub_total := 200, shipping := 20, tax_fee := 20, service_fee := 2,
           total := 242 }]) ∧
    ((cartAdd addPayTax stTax).1.carts.map (fun ci => ci.tax_fee)
      ≠ (cartUpdate "d" 1 2 stTaxU).1.carts.map (fun ci => ci.tax_fee)) := by
  with_unfolding_all decide

/-- C7 counterexample: the claim says a rejected accumulation reports how many
more units are obtainable (`available − existing`, clamped to zero).  In the
§8 scenario (stock 5, existing 3, adding 3) the source rejects with
"Cannot add 3 more. Total quantity would exceed available stock (5)": the
number reported is the total stock 5, not `5 − 3 = 2`. -/

theorem C7_rejection_reports_total_stock :
    (cartAdd addPayAccum stAccum).2 = .rejected (.accumExceedsStock 3 5) ∧
    (cartAdd addPayAccum stAccum).1 = stAccum ∧
    (5 : Int) ≠ 5 - 3 := by
  with_unfolding_all decide

/-- C9: every save of a Product, Color or Size recomputes the derived flag, so
immediately after any successful save `in_stock` is true exactly when
`stock_qty > 0`. -/

theorem C9_in_stock_iff_positive_after_save :
    (∀ p p2, Product.save p = some p2 → (p2.in_stock = true ↔ 0 < p2.stock_qty)) ∧
    (∀ c c2, Color.save c = some c2 → (c2.in_stock = true ↔ 0 < c2.stock_qty)) ∧
    (∀ s s2, Size.save s = some s2 → (s2.in_stock = true ↔ 0 < s2.stock_qty)) := by
  refine ⟨fun p p2 h => ?_, fun c c2 h => ?_, fun s s2 h => ?_⟩
  · unfold Product.save at h
    split at h
    · cases h
    · cases h
      simp [decide_eq_true_iff]
  · unfold Color.save at h
    split at h
    · cases h
    · cases h
      simp [decide_eq_true_iff]
  · unfold Size.save at h
    split at h
    · cases h
    · cases h
      simp [decide_eq_true_iff]

/-- Witness for C9 at concrete rows. -/

theorem C9_witness :
    (({ prodA with in_stock := true } : Product).in_stock = true
      ↔ 0 < ({ prodA with in_stock := true } : Product).stock_qty) ∧
    (({ id := 5, product_id := 1, name := "Red", stock_qty := 0, in_stock := false } : Color).in_stock = true
      ↔ 0 < ({ id := 5, product_id := 1, name := "Red", stock_qty := 0, in_stock := false } : Color).stock_qty) ∧
    (({ id := 6, product_id := 1, name := "L", stock_qty := 3, in_stock := true } : Size).in_stock = true
      ↔ 0 < ({ id := 6, product_id := 1, name := "L", stock_qty := 3, in_stock := true } : Size).stock_qty) :=
  ⟨C9_in_stock_iff_positive_after_save.1 prodA _ (by with_unfolding_all decide),
   C9_in_stock_iff_positive_after_save.2.1
     { id := 5, product_id := 1, name := "Red", stock_qty := 0, in_stock := true } _ (by with_unfolding_all decide),
   C9_in_stock_iff_positive_after_save.2.2
     { id := 6, product_id := 1, name := "L", stock_qty := 3, in_stock := false } _ (by with_unfolding_all decide)⟩

/-- C4: no stock-mutating operation of the core — the order-creation commit
and the deferred settlement — ever leaves a Product, Color or Size stock_qty
below zero, from any payload, order and pre-state with non-negative stocks.
The creation path checks every quantity against the locked rows before
decrementing; the settlement path has no shortage check of its own, but a
decrement below zero violates the PositiveIntegerField check constraint, so
the save raises (the embedded save returns `none`) and the row keeps its old
value. -/

theorem C4_stock_never_negative :
    (∀ payload st, stocksNonneg st → stocksNonneg (createOrder payload st).1) ∧
    (∀ st o, stocksNonneg st → stocksNonneg (reduceStockForWhatsappOrder st o).1) :=
  ⟨fun payload st h => createOrderWith_nonneg (payload.payment_method.getD "stripe")
      payload.cart_id st h,
   fun st o h => reduceStock_nonneg st o h⟩

/-- Witness for C4: a failing checkout and a settlement that would overdraw
stock (order qty 4 against stock 2) both leave every stock non-negative. -/

theorem C4_witness :
    stocksNonneg (createOrder { cart_id := "c1", payment_method := some "stripe" } stCheckout).1 ∧
    stocksNonneg (reduceStockForWhatsappOrder stSettleLow ordW).1 :=
  ⟨C4_stock_never_negative.1 { cart_id := "c1", payment_method := some "stripe" } stCheckout
      (by decide),
   C4_stock_never_negative.2 stSettleLow ordW (by decide)⟩

/-- C5: settlement fails loudly on a violated precondition — whenever the
order is not a paid WhatsApp order it raises the ValidationError verbatim and
leaves the whole store (hence all stock) untouched — and when both
preconditions hold and the item loop completes, it returns committed = True. -/

theorem reduceStock_guard_error (st : Store) (o : CartOrder)
    (h : o.payment_method ≠ "whatsapp" ∨ o.payment_status ≠ "paid") :
    reduceStockForWhatsappOrder st o
      = (st, .error ("This method can only be used for paid WhatsApp orders. Current: method="
          ++ o.payment_method ++ ", status=" ++ o.payment_status)) := by
  unfold reduceStockForWhatsappOrder
  have hcond : (o.payment_method == "whatsapp" && o.payment_status == "paid") = false := by
    rcases h with h | h <;> simp [h]
  rw [hcond]
  simp

theorem reduceStock_guard_ok (st : Store) (o : CartOrder) (st2 : Store)
    (hm : o.payment_method = "whatsapp") (hp : o.payment_status = "paid")
    (hs : settleItems (orderLines st o.oid) st = .ok st2) :
    reduceStockForWhatsappOrder st o = (st2, .ok true) := by
  unfold reduceStockForWhatsappOrder
  have hcond : (o.payment_method == "whatsapp" && o.payment_status == "paid") = true := by
    simp [hm, hp]
  rw [hcond]
  simp [hs]

theorem C5_settlement_contract :
    (∀ st o, o.payment_method ≠ "whatsapp" ∨ o.payment_status ≠ "paid" →
      reduceStockForWhatsappOrder st o
        = (st, .error ("This method can only be used for paid WhatsApp orders. Current: method="
            ++ o.payment_method ++ ", status=" ++ o.payment_status))) ∧
    (∀ st o st2, o.payment_method = "whatsapp" → o.payment_status = "paid" →
      settleItems (orderLines st o.oid) st = .ok st2 →
      reduceStockForWhatsappOrder st o = (st2, .ok true)) :=
  ⟨reduceStock_guard_error, reduceStock_guard_ok⟩

/-- Witness for C5: the stripe-method order is rejected with the store intact,
and settling the paid WhatsApp order returns committed = True. -/

theorem C5_witness :
    reduceStockForWhatsappOrder stSettle ordStripe
      = (stSettle, .error ("This method can only be used for paid WhatsApp orders. Current: method="
          ++ ordStripe.payment_method ++ ", status=" ++ ordStripe.payment_status)) ∧
    reduceStockForWhatsappOrder stSettle ordW = (stSettleAfter, .ok true) :=
  ⟨C5_settlement_contract.1 stSettle ordStripe (Or.inl (by with_unfolding_all decide)),
   C5_settlement_contract.2 stSettle ordW stSettleAfter rfl rfl (by with_unfolding_all decide)⟩

/-- C2: stock is committed conditionally on the payment method.  With the
deferred method ("whatsapp"), order creation leaves every Product, Color and
Size row untouched, whatever the outcome.  With any immediate method, a
successful checkout decrements, inside the same transaction, every product's
stock_qty by the summed quantity of its cart lines, and every selected
color/size variant's stock_qty by the summed quantity of the lines that
selected it. -/

theorem C2_conditional_stock_commit :
    (∀ payload st, payload.payment_method.getD "stripe" = "whatsapp" →
      (createOrder payload st).1.products = st.products ∧
      (createOrder payload st).1.colors = st.colors ∧
      (createOrder payload st).1.sizes = st.sizes) ∧
    (∀ payload st st2 oid, payload.payment_method.getD "stripe" ≠ "whatsapp" →
      uniqueIds st → createOrder payload st = (st2, .success oid) →
      (∀ pid, productStock st2 pid = (productStock st pid).map
        (fun v => v - cartQtySum (cartLines st payload.cart_id) pid)) ∧
      (∀ pid nm, colorStockView st2 pid nm = (colorStockView st pid nm).map
        (fun v => v - colorQtySum (cartLines st payload.cart_id) pid nm)) ∧
      (∀ pid nm, sizeStockView st2 pid nm = (sizeStockView st pid nm).map
        (fun v => v - sizeQtySum (cartLines st payload.cart_id) pid nm))) := by
  constructor
  · intro payload st hpm
    unfold createOrder
    rw [hpm]
    exact createOrderWith_whatsapp_stocks payload.cart_id st
  · intro payload st st2 oid hpm hu h
    unfold createOrder at h
    exact createOrderWith_ok_stocks hpm hu h

/-- Witness for C2: a WhatsApp checkout of cart "c1" leaves all stock tables
unchanged, and a stripe checkout of cart "g" (2 units of product A)
decrements product A's stock by its cart-line sum. -/

theorem C2_witness :
    ((createOrder { cart_id := "c1", payment_method := some "whatsapp" } stCheckout).1.products
      = stCheckout.products ∧
     (createOrder { cart_id := "c1", payment_method := some "whatsapp" } stCheckout).1.colors
      = stCheckout.colors ∧
     (createOrder { cart_id := "c1", payment_method := some "whatsapp" } stCheckout).1.sizes
      = stCheckout.sizes) ∧
    productStock (createOrder { cart_id := "g", payment_method := some "stripe" } stGood).1 1
      = (productStock stGood 1).map
        (fun v => v - cartQtySum (cartLines stGood "g") 1) := by
  constructor
  · exact C2_conditional_stock_commit.1
      { cart_id := "c1", payment_method := some "whatsapp" } stCheckout (by decide)
  · exact (C2_conditional_stock_commit.2
      { cart_id := "g", payment_method := some "stripe" } stGood
      (createOrder { cart_id := "g", payment_method := some "stripe" } stGood).1 1
      (by decide) (by decide)
      (by
        have : (createOrder { cart_id := "g", payment_method := some "stripe" } stGood).2
            = .success 1 := by with_unfolding_all decide
        rw [← this])).1 1

/-- C10: the deferred payment class is exactly the literal string "whatsapp".
An absent payment_method defaults to "stripe"; every payment_method other
than "whatsapp" — the default and any unrecognized string alike — commits
stock inside the checkout transaction on success, and settlement raises on
every such order; only "whatsapp" defers, so there is no third
classification. -/

theorem C10_deferred_class_is_exactly_whatsapp :
    (∀ payload st, payload.payment_method = none →
      createOrder payload st = createOrderWith "stripe" payload.cart_id st) ∧
    (∀ payload st, payload.payment_method.getD "stripe" = "whatsapp" →
      (createOrder payload st).1.products = st.products ∧
      (createOrder payload st).1.colors = st.colors ∧
      (createOrder payload st).1.sizes = st.sizes) ∧
    (∀ payload st st2 oid, payload.payment_method.getD "stripe" ≠ "whatsapp" →
      uniqueIds st → createOrder payload st = (st2, .success oid) →
      ∀ pid, productStock st2 pid = (productStock st pid).map
        (fun v => v - cartQtySum (cartLines st payload.cart_id) pid)) ∧
    (∀ st o, o.payment_method ≠ "whatsapp" →
      reduceStockForWhatsappOrder st o
        = (st, .error ("This method can only be used for paid WhatsApp orders. Current: method="
            ++ o.payment_method ++ ", status=" ++ o.payment_status))) := by
  refine ⟨?_, ?_, ?_, ?_⟩
  · intro payload st hpm
    unfold createOrder
    rw [hpm]
    rfl
  · intro payload st hpm
    unfold createOrder
    rw [hpm]
    exact createOrderWith_whatsapp_stocks payload.cart_id st
  · intro payload st st2 oid hpm hu h
    unfold createOrder at h
    exact (createOrderWith_ok_stocks hpm hu h).1
  · intro st o hm
    exact reduceStock_guard_error st o (Or.inl hm)

/-- Witness for C10: the default resolves to "stripe"; an unrecognized
method "paypal" still decrements stock on success; a WhatsApp checkout does
not; settling a stripe order raises. -/

theorem C10_witness :
    (createOrder { cart_id := "g", payment_method := none } stGood
      = createOrderWith "stripe" "g" stGood) ∧
    productStock (createOrder { cart_id := "g", payment_method := some "paypal" } stGood).1 1
      = (productStock stGood 1).map
        (fun v => v - cartQtySum (cartLines stGood "g") 1) ∧
    (createOrder { cart_id := "g", payment_method := some "whatsapp" } stGood).1.products
      = stGood.products ∧
    reduceStockForWhatsappOrder stSettle ordStripe
      = (stSettle, .error ("This method can only be used for paid WhatsApp orders. Current: method="
          ++ ordStripe.payment_method ++ ", status=" ++ ordStripe.payment_status)) := by
  refine ⟨?_, ?_, ?_, ?_⟩
  · exact C10_deferred_class_is_exactly_whatsapp.1
      { cart_id := "g", payment_method := none } stGood rfl
  · exact C10_deferred_class_is_exactly_whatsapp.2.2.1
      { cart_id := "g", payment_method := some "paypal" } stGood
      (createOrder { cart_id := "g", payment_method := some "paypal" } stGood).1 1
      (by decide) (by decide)
      (by
        have : (createOrder { cart_id := "g", payment_method := some "paypal" } stGood).2
            = .success 1 := by with_unfolding_all decide
        rw [← this]) 1
  · exact (C10_deferred_class_is_exactly_whatsapp.2.1
      { cart_id := "g", payment_method := some "whatsapp" } stGood (by decide)).1
  · exact C10_deferred_class_is_exactly_whatsapp.2.2.2 stSettle ordStripe (by decide)

theorem updateCartRow_length (st : Store) (x : CartItem) :
    (updateCartRow st x).carts.length = st.carts.length := by
  simp [updateCartRow, updBy]

theorem validateColorSelection_error_shape {st : Store} {product : Product} {color : String}
    {qty : Int} {e : CartError}
    (h : validateColorSelection st product color qty = .error e) :
    (∀ q a, e ≠ .accumExceedsStock q a) ∧ (∀ q a, e ≠ .accumExceedsLimit q a) := by
  unfold validateColorSelection at h
  split at h
  · cases h
  · split at h
    · obtain rfl := Except.error.inj h
      exact ⟨by simp, by simp⟩
    · split at h
      · obtain rfl := Except.error.inj h
        exact ⟨by simp, by simp⟩
      · rename_i c hfcx
        split at h
        · obtain rfl := Except.error.inj h
          exact ⟨by simp, by simp⟩
        · cases h

theorem validateSizeSelection_error_shape {st : Store} {product : Product} {size : String}
    {qty : Int} {e : CartError}
    (h : validateSizeSelection st product size qty = .error e) :
    (∀ q a, e ≠ .accumExceedsStock q a) ∧ (∀ q a, e ≠ .accumExceedsLimit q a) := by
  unfold validateSizeSelection at h
  split at h
  · cases h
  · split at h
    · obtain rfl := Except.error.inj h
      exact ⟨by simp, by simp⟩
    · split at h
      · obtain rfl := Except.error.inj h
        exact ⟨by simp, by simp⟩
      · rename_i s hfsx
        split at h
        · obtain rfl := Except.error.inj h
          exact ⟨by simp, by simp⟩
        · cases h

theorem cartAdd_inv (payload : CartAddPayload) (st st2 : Store) (r : CartAddResult)
    (h : cartAdd payload st = (st2, r)) :
    (∃ e, r = .rejected e ∧ st2 = st ∧
      (∀ q a, e ≠ .accumExceedsStock q a) ∧ (∀ q a, e ≠ .accumExceedsLimit q a)) ∨
    (∃ product color size existing,
      findPublishedProduct st payload.product_id = some product ∧
      validateColorSelection st product payload.color payload.qty = .ok color ∧
      validateSizeSelection st product payload.size payload.qty = .ok size ∧
      findExistingLine st payload.cart_id product.id color size = some existing ∧
      ((r = .rejected (.accumExceedsStock payload.qty product.stock_qty) ∧ st2 = st ∧
          existing.qty + payload.qty > product.stock_qty) ∨
       (r = .rejected (.accumExceedsLimit payload.qty product.max_cart_limit) ∧ st2 = st ∧
          ¬(existing.qty + payload.qty > product.stock_qty) ∧
          existing.qty + payload.qty > product.max_cart_limit) ∨
       (r = .updated (existing.qty + payload.qty) ∧
          ¬(existing.qty + payload.qty > product.stock_qty) ∧
          ¬(existing.qty + payload.qty > product.max_cart_limit) ∧
          st2 = updateCartRow st (accumRow payload (taxRateFor st payload.country) existing)))) ∨
    (∃ product color size,
      findPublishedProduct st payload.product_id = some product ∧
      validateColorSelection st product payload.color payload.qty = .ok color ∧
      validateSizeSelection st product payload.size payload.qty = .ok size ∧
      findExistingLine st payload.cart_id product.id color size = none ∧
      r = .created ∧
      st2 = { st with carts := st.carts ++
        [newCartRow payload st product color size (taxRateFor st payload.country)] }) := by
  unfold cartAdd at h
  split at h
  · exact Or.inl ⟨_, (congrArg Prod.snd h).symm, (congrArg Prod.fst h).symm,
      by simp, by simp⟩
  · split at h
    · exact Or.inl ⟨_, (congrArg Prod.snd h).symm, (congrArg Prod.fst h).symm,
        by simp, by simp⟩
    · split at h
      · exact Or.inl ⟨_, (congrArg Prod.snd h).symm, (congrArg Prod.fst h).symm,
          by simp, by simp⟩
      · split at h
        · exact Or.inl ⟨_, (congrArg Prod.snd h).symm, (congrArg Prod.fst h).symm,
            by simp, by simp⟩
        · rename_i product hfp
          split at h
          · exact Or.inl ⟨_, (congrArg Prod.snd h).symm, (congrArg Prod.fst h).symm,
              by simp, by simp⟩
          · split at h
            · exact Or.inl ⟨_, (congrArg Prod.snd h).symm, (congrArg Prod.fst h).symm,
                by simp, by simp⟩
            · split at h
              · exact Or.inl ⟨_, (congrArg Prod.snd h).symm, (congrArg Prod.fst h).symm,
                  by simp, by simp⟩
              · split at h
                · rename_i e hvc
                  exact Or.inl ⟨_, (congrArg Prod.snd h).symm, (congrArg Prod.fst h).symm,
                    (validateColorSelection_error_shape hvc).1,
                    (validateColorSelection_error_shape hvc).2⟩
                · rename_i color hvc
                  split at h
                  · rename_i e hvs
                    exact Or.inl ⟨_, (congrArg Prod.snd h).symm, (congrArg Prod.fst h).symm,
                      (validateSizeSelection_error_shape hvs).1,
                      (validateSizeSelection_error_shape hvs).2⟩
                  · rename_i size hvs
                    dsimp only at h
                    split at h
                    · rename_i existing hex
                      split at h
                      · rename_i hgt
                        exact Or.inr (Or.inl ⟨product, color, size, existing, hfp, hvc, hvs,
                          hex, Or.inl ⟨(congrArg Prod.snd h).symm,
                            (congrArg Prod.fst h).symm, hgt⟩⟩)
                      · rename_i hngt
                        split at h
                        · rename_i hgt2
                          exact Or.inr (Or.inl ⟨product, color, size, existing, hfp, hvc, hvs,
                            hex, Or.inr (Or.inl ⟨(congrArg Prod.snd h).symm,
                              (congrArg Prod.fst h).symm, hngt, hgt2⟩)⟩)
                        · rename_i hngt2
                          exact Or.inr (Or.inl ⟨product, color, size, existing, hfp, hvc, hvs,
                            hex, Or.inr (Or.inr ⟨(congrArg Prod.snd h).symm, hngt, hngt2,
                              (congrArg Prod.fst h).symm⟩)⟩)
                    · rename_i hex
                      exact Or.inr (Or.inr ⟨product, color, size, hfp, hvc, hvs, hex,
                        (congrArg Prod.snd h).symm, (congrArg Prod.fst h).symm⟩)

/-- C7 (amended): when a line item already exists for the same (cart_id,
product, color, size), a cart add accumulates into that single line item —
its quantity becomes existing + requested, the combined quantity is checked
against the product stock ceiling and `max_cart_limit`, the add is rejected
when either is exceeded with a message reporting the requested extra quantity
and the TOTAL stock (or the total cart limit) — not `available − existing` as
originally claimed — and on success every fee field is recomputed once from
the combined quantity; the row count is unchanged, and a second line item is
only ever created when no matching line exists. -/

theorem C7_accumulation_behavior (payload : CartAddPayload) (st : Store) :
    (∀ st2 nq, cartAdd payload st = (st2, .updated nq) →
      ∃ product color size existing,
        findPublishedProduct st payload.product_id = some product ∧
        validateColorSelection st product payload.color payload.qty = .ok color ∧
        validateSizeSelection st product payload.size payload.qty = .ok size ∧
        findExistingLine st payload.cart_id product.id color size = some existing ∧
        nq = existing.qty + payload.qty ∧
        ¬(nq > product.stock_qty) ∧ ¬(nq > product.max_cart_limit) ∧
        st2 = updateCartRow st (accumRow payload (taxRateFor st payload.country) existing) ∧
        st2.carts.length = st.carts.length) ∧
    (∀ st2 e, cartAdd payload st = (st2, .rejected e) → st2 = st) ∧
    (∀ st2 q a, cartAdd payload st = (st2, .rejected (.accumExceedsStock q a)) →
      ∃ product color size existing,
        findPublishedProduct st payload.product_id = some product ∧
        findExistingLine st payload.cart_id product.id color size = some existing ∧
        q = payload.qty ∧ a = product.stock_qty ∧
        existing.qty + payload.qty > product.stock_qty) ∧
    (∀ st2 q a, cartAdd payload st = (st2, .rejected (.accumExceedsLimit q a)) →
      ∃ product color size existing,
        findPublishedProduct st payload.product_id = some product ∧
        findExistingLine st payload.cart_id product.id color size = some existing ∧
        q = payload.qty ∧ a = product.max_cart_limit ∧
        existing.qty + payload.qty > product.max_cart_limit) ∧
    (∀ st2, cartAdd payload st = (st2, .created) →
      ∃ product color size,
        findPublishedProduct st payload.product_id = some product ∧
        findExistingLine st payload.cart_id product.id color size = none) := by
  refine ⟨?_, ?_, ?_, ?_, ?_⟩
  · intro st2 nq h
    rcases cartAdd_inv payload st st2 _ h with ⟨e, hre, _, _, _⟩
      | ⟨p, c, s, ex, hfp, hvc, hvs, hex, hcase⟩ | ⟨p, c, s, _, _, _, _, hre, _⟩
    · cases hre
    · rcases hcase with ⟨hre, _, _⟩ | ⟨hre, _, _, _⟩ | ⟨hre, hb1, hb2, hst⟩
      · cases hre
      · cases hre
      · have hnq : nq = ex.qty + payload.qty := CartAddResult.updated.inj hre
        subst hnq
        refine ⟨p, c, s, ex, hfp, hvc, hvs, hex, rfl, hb1, hb2, hst, ?_⟩
        rw [hst]
        exact updateCartRow_length st _
    · cases hre
  · intro st2 e h
    rcases cartAdd_inv payload st st2 _ h with ⟨e2, _, hst, _, _⟩
      | ⟨p, c, s, ex, _, _, _, _, hcase⟩ | ⟨_, _, _, _, _, _, _, hre, _⟩
    · exact hst
    · rcases hcase with ⟨_, hst, _⟩ | ⟨_, hst, _, _⟩ | ⟨hre, _, _, _⟩
      · exact hst
      · exact hst
      · cases hre
    · cases hre
  · intro st2 q a h
    rcases cartAdd_inv payload st st2 _ h with ⟨e2, hre, _, hne, _⟩
      | ⟨p, c, s, ex, hfp, hvc, hvs, hex, hcase⟩ | ⟨_, _, _, _, _, _, _, hre, _⟩
    · exact absurd (CartAddResult.rejected.inj hre).symm (hne q a)
    · rcases hcase with ⟨hre, _, hgt⟩ | ⟨hre, _, _, _⟩ | ⟨hre, _, _, _⟩
      · obtain ⟨hq, ha⟩ := CartError.accumExceedsStock.inj (CartAddResult.rejected.inj hre)
        exact ⟨p, c, s, ex, hfp, hex, hq, ha, hgt⟩
      · exact absurd (CartAddResult.rejected.inj hre) (by simp)
      · cases hre
    · cases hre
  · intro st2 q a h
    rcases cartAdd_inv payload st st2 _ h with ⟨e2, hre, _, _, hne⟩
      | ⟨p, c, s, ex, hfp, hvc, hvs, hex, hcase⟩ | ⟨_, _, _, _, _, _, _, hre, _⟩
    · exact absurd (CartAddResult.rejected.inj hre).symm (hne q a)
    · rcases hcase with ⟨hre, _, _⟩ | ⟨hre, _, _, hgt⟩ | ⟨hre, _, _, _⟩
      · exact absurd (CartAddResult.rejected.inj hre) (by simp)
      · obtain ⟨hq, ha⟩ := CartError.accumExceedsLimit.inj (CartAddResult.rejected.inj hre)
        exact ⟨p, c, s, ex, hfp, hex, hq, ha, hgt⟩
      · cases hre
    · cases hre
  · intro st2 h
    rcases cartAdd_inv payload st st2 _ h with ⟨e2, hre, _, _, _⟩
      | ⟨p, c, s, ex, _, _, _, _, hcase⟩ | ⟨p, c, s, hfp, hvc, hvs, hex, _, _⟩
    · cases hre
    · rcases hcase with ⟨hre, _, _⟩ | ⟨hre, _, _, _⟩ | ⟨hre, _, _, _⟩ <;> cases hre
    · exact ⟨p, c, s, hfp, hex⟩

/-- Witness for C7 at the spec §8 scenario: adding 2 more units of product C
(stock 5, limit 10) to cart "k" holding 3 accumulates to one line of
quantity 5 recomputed once; adding 3 more is rejected reporting the total
stock 5. -/

theorem C7_amended_witness :
    (∃ product color size existing,
      findPublishedProduct stAccum addPayAccum2.product_id = some product ∧
      validateColorSelection stAccum product addPayAccum2.color addPayAccum2.qty
        = .ok color ∧
      validateSizeSelection stAccum product addPayAccum2.size addPayAccum2.qty
        = .ok size ∧
      findExistingLine stAccum addPayAccum2.cart_id product.id color size = some existing ∧
      (5 : Int) = existing.qty + addPayAccum2.qty ∧
      ¬((5 : Int) > product.stock_qty) ∧ ¬((5 : Int) > product.max_cart_limit) ∧
      (cartAdd addPayAccum2 stAccum).1 = updateCartRow stAccum
        (accumRow addPayAccum2 (taxRateFor stAccum addPayAccum2.country) existing) ∧
      (cartAdd addPayAccum2 stAccum).1.carts.length = stAccum.carts.length) ∧
    (∃ product color size existing,
      findPublishedProduct stAccum addPayAccum.product_id = some product ∧
      findExistingLine stAccum addPayAccum.cart_id product.id color size = some existing ∧
      (3 : Int) = addPayAccum.qty ∧ (5 : Int) = product.stock_qty ∧
      existing.qty + addPayAccum.qty > product.stock_qty) := by
  constructor
  · exact (C7_accumulation_behavior addPayAccum2 stAccum).1
      (cartAdd addPayAccum2 stAccum).1 5
      (by
        have : (cartAdd addPayAccum2 stAccum).2 = .updated 5 := by
          with_unfolding_all decide
        rw [← this])
  · exact (C7_accumulation_behavior addPayAccum stAccum).2.2.1 stAccum 3 5
      (by with_unfolding_all decide)

end LuaCheia
